import Mathlib

/-!
# sd-mux-ctrl (sdwirec-sw/src/main.cpp): device abstraction and pin protocol

A shallow embedding of `main.cpp`.  The FTDI transport is an external
collaborator: every call to it is recorded, in program order, in a trace of
events (`Ev`), and its answers come from an environment (`Env`) whose answers
may depend on everything that happened before the call.  Each operation of the
program is a function from the environment and the options to its exit status
and the trace it produced.

Conventions
* `unsigned char` values are naturals reduced `% 256`;
* `int` results of library calls are integers;
* C strings are `String`s holding the characters before the terminating NUL;
* a diagnostic whose format has conversions is recorded by its format text.
-/

namespace SdMux

/-! ## Constants -/

abbrev EXIT_SUCCESS : Int := 0
abbrev EXIT_FAILURE : Int := 1

abbrev PRODUCT : Int := 0x6001
abbrev SAMSUNG_VENDOR : Int := 0x04e8

-- SDMUX specific definitions
abbrev SOCKET_SEL : Nat := 0x01 <<< 0x00
abbrev USB_SEL : Nat := 0x01 <<< 0x03
abbrev POWER_SW_OFF : Nat := 0x01 <<< 0x02
abbrev POWER_SW_ON : Nat := 0x01 <<< 0x04
abbrev DYPER1 : Nat := 0x01 <<< 0x05
abbrev DYPER2 : Nat := 0x01 <<< 0x06

-- USBMUX specific definitions
abbrev UM_SOCKET_SEL : Nat := 0x01 <<< 0x00
abbrev UM_DEVICE_PWR : Nat := 0x01 <<< 0x01
abbrev UM_DUT_LED : Nat := 0x01 <<< 0x02
abbrev UM_GP_LED : Nat := 0x01 <<< 0x03

abbrev DELAY_100MS : Int := 100000
abbrev DELAY_500MS : Int := 500000

abbrev CCDT_SDMUX_STR : String := "sd-mux"
abbrev CCDT_SDWIRE_STR : String := "sd-wire"
abbrev CCDT_USBMUX_STR : String := "usb-mux"

abbrev STRON : String := "ON"
abbrev STROFF : String := "OFF"

/-! ## Enumerations -/

inductive CCCommand where
  | CCC_List | CCC_DUT | CCC_TS | CCC_Tick | CCC_Pins | CCC_Info | CCC_ShowSerial
  | CCC_SetSerial | CCC_Init | CCC_Status | CCC_DyPer1 | CCC_DyPer2 | CCC_None
  deriving DecidableEq, Repr

inductive Target where
  | T_DUT | T_TS
  deriving DecidableEq, Repr

inductive CCDeviceType where
  | CCDT_SDMUX | CCDT_SDWIRE | CCDT_USBMUX | CCDT_MAX
  deriving DecidableEq, Repr

inductive CCFeature where
  | CCF_SDMUX | CCF_POWERSWITCH | CCF_USBMUX | CCF_DYPERS | CCF_MAX
  deriving DecidableEq, Repr

open CCCommand Target CCDeviceType CCFeature

/-- Numeric value of a `CCDeviceType` enumerator. -/
def CCDeviceType.toNat : CCDeviceType → Nat
  | CCDT_SDMUX => 0
  | CCDT_SDWIRE => 1
  | CCDT_USBMUX => 2
  | CCDT_MAX => 3

/-- Numeric value of a `CCFeature` enumerator. -/
def CCFeature.toNat : CCFeature → Nat
  | CCF_SDMUX => 0
  | CCF_POWERSWITCH => 1
  | CCF_USBMUX => 2
  | CCF_DYPERS => 3
  | CCF_MAX => 4

/-- The option array `CCOptionValue options[CCO_MAX]`, one field per `CCOption`
index; a `char *` member is `none` when it is the null pointer. -/
structure Options where
  deviceId : Int
  deviceSerial : Option String
  tickTime : Int
  bitsInvert : Int
  vendor : Int
  product : Int
  dyPer : Option String
  deviceType : Option String
  deriving DecidableEq, Repr

/-- The option array as `main` sets it up before the arguments are parsed:
all zero, then `device-id = -1` and the default vendor and product ids. -/
def defaultOptions : Options where
  deviceId := -1
  deviceSerial := none
  tickTime := 0
  bitsInvert := 0
  vendor := SAMSUNG_VENDOR
  product := PRODUCT
  dyPer := none
  deviceType := none

/-! ## The transport: events and environment -/

/-- The bit modes of libftdi the program uses. -/
inductive BitMode where
  | BITMODE_BITBANG | BITMODE_CBUS
  deriving DecidableEq, Repr

/-- The EEPROM value names of libftdi the program uses. -/
inductive EepromValue where
  | VENDOR_ID | PRODUCT_ID | CBUS_FUNCTION_0 | CBUS_FUNCTION_1 | CBUS_FUNCTION_2
  | CBUS_FUNCTION_3
  deriving DecidableEq, Repr

/-- The EEPROM values the program stores: an id or the constant `CBUSH_IOMODE`. -/
inductive EepromSetting where
  | num (n : Int)
  | CBUSH_IOMODE
  deriving DecidableEq, Repr

/-- What the program does to the outside world, one event per library call,
delay or printed line. -/
inductive Ev where
  | ftdiNew
  | usbOpen (vendor product : Int) (serial : Option String) (index : Int)
  | readEeprom
  | eepromDecode (verbose : Nat)
  | eepromGetStrings
  | eepromInitDefaults (manufacturer product serial : String)
  | setEepromValue (name : EepromValue) (value : EepromSetting)
  | eepromBuild
  | writeEeprom
  | setBitmode (mask : Nat) (mode : BitMode)
  | readData
  | readPins
  | writeData (b : Nat)
  | usleep (us : Int)
  | usbClose
  | ftdiFree
  | stdout (s : String)
  | stderr (s : String)
  deriving DecidableEq, Repr

open BitMode EepromValue

/-- The answers of the transport and of the machine.  An answer that can be
asked for more than once is a function of the trace up to the call. -/
structure Env where
  /-- Whether `ftdi_new` returns a context. -/
  newOk : Bool
  /-- Result of `ftdi_usb_open_desc_index`. -/
  usbOpen : Int
  /-- Result of `ftdi_read_eeprom`. -/
  readEeprom : Int
  /-- Result of `ftdi_eeprom_decode`. -/
  eepromDecode : List Ev → Int
  /-- The product string `ftdi_eeprom_get_strings` leaves in the buffer. -/
  productStr : String
  /-- Result of the EEPROM set-up calls (`ftdi_eeprom_initdefaults`,
  `ftdi_set_eeprom_value`, `ftdi_eeprom_build`, `ftdi_write_eeprom`). -/
  eepromCall : List Ev → Int
  /-- Result of `ftdi_set_bitmode` for a mask and a mode. -/
  setBitmode : List Ev → Nat → BitMode → Int
  /-- Result of `ftdi_read_data` and the byte the buffer holds afterwards. -/
  readData : List Ev → Int × Nat
  /-- Result of `ftdi_read_pins` and the byte the buffer holds afterwards. -/
  readPins : List Ev → Int × Nat
  /-- Result of `ftdi_write_data` for a byte. -/
  writeData : List Ev → Nat → Int
  /-- Content of a local `unsigned char pins;` before anything is stored in it. -/
  uninitPins : Nat
  /-- Content of a local `CCDeviceType deviceType;` before anything is stored. -/
  uninitType : CCDeviceType

/-! ## Bytes and strings -/

/-- The statement `x |= m` on an `unsigned char`. -/
def setBits (x m : Nat) : Nat := (x ||| m) % 256

/-- The statement `x &= ~m` on an `unsigned char`; for an 8-bit `m` the low
byte of `~m` is `0xFF ^ m`. -/
def clearBits (x m : Nat) : Nat := (x &&& (0xFF ^^^ m)) % 256

/-- The test `x & m` of C, true when the result is not zero. -/
def testBits (x m : Nat) : Bool := (x &&& m) != 0

/-- The function `strcmp` on the characters of two strings; the end of a list
is the terminating NUL. -/
def strcmpAux : List Char → List Char → Int
  | [], [] => 0
  | [], c :: _ => 0 - (c.toNat : Int)
  | c :: _, [] => (c.toNat : Int)
  | a :: as, b :: bs => if a = b then strcmpAux as bs else (a.toNat : Int) - (b.toNat : Int)

/-- The function `strcmp` of C. -/
def strcmp (a b : String) : Int := strcmpAux a.toList b.toList

/-- The function `strcasecmp` on the characters of two strings: `strcmp` on their
lower-case forms. -/
def strcasecmpAux : List Char → List Char → Int
  | [], [] => 0
  | [], c :: _ => 0 - (c.toLower.toNat : Int)
  | c :: _, [] => (c.toLower.toNat : Int)
  | a :: as, b :: bs =>
    if a.toLower = b.toLower then strcasecmpAux as bs
    else (a.toLower.toNat : Int) - (b.toLower.toNat : Int)

/-- The function `strcasecmp` of C (in the C locale). -/
def strcasecmp (a b : String) : Int := strcasecmpAux a.toList b.toList

/-- A string is a C string when no character of it is NUL. -/
def NulFree (s : String) : Prop := ∀ c ∈ s.toList, c ≠ Char.ofNat 0

/-- The conversion `%x` of `printf`. -/
def hex (n : Nat) : String := String.mk (Nat.toDigits 16 n)

/-! ## Device identity and feature matrix -/

def getDeviceTypeFromString (deviceTypeStr : String) : CCDeviceType :=
  if strcmp CCDT_SDMUX_STR deviceTypeStr = 0 then CCDT_SDMUX
  else if strcmp CCDT_SDWIRE_STR deviceTypeStr = 0 then CCDT_SDWIRE
  else if strcmp CCDT_USBMUX_STR deviceTypeStr = 0 then CCDT_USBMUX
  else CCDT_MAX

/-- The table `featureMatrix[CCDT_MAX][CCF_MAX]`. -/
def featureMatrix : List (List Bool) :=
  [ [true, true, true, true],        -- SD-MUX features
    [true, false, false, false],     -- SDWire features
    [false, false, true, false] ]    -- USB-MUX features

/-- The body of `hasFeature` on the numeric values of its arguments.  The table
is read with `get?`, which answers `none` outside the table. -/
def hasFeatureIdx (deviceType feature : Nat) : Option Bool :=
  if deviceType ≥ CCDeviceType.toNat CCDT_MAX ∨ feature ≥ CCFeature.toNat CCF_MAX then
    some false
  else
    (featureMatrix.get? deviceType).bind (fun row => row.get? feature)

/-- The function `hasFeature`; an access outside the table would give `false`
through `getD`, and `hasFeatureIdx` shows whether one happens. -/
def hasFeature (deviceType : CCDeviceType) (feature : CCFeature) : Bool :=
  (hasFeatureIdx deviceType.toNat feature.toNat).getD false

/-! ## Opening the device -/

/-- The clean-up both `error:` and `finish_him:` do. -/
def closeAndFree (tr : List Ev) : List Ev := tr ++ [Ev.usbClose, Ev.ftdiFree]

/-- The function `openDevice`.  Argument `wantType` says that the pointer
`deviceType` is not null.  The result is `none` for a null context; otherwise
it holds what was stored through `deviceType`, if anything. -/
def openDevice (env : Env) (options : Options) (wantType : Bool) (tr : List Ev) :
    Option (Option CCDeviceType) × List Ev :=
  if options.deviceSerial = none ∧ options.deviceId < 0 then
    (none, tr ++ [Ev.stderr "No serial number or device id provided!\n"])
  else
    let tr := tr ++ [Ev.ftdiNew]
    if env.newOk = false then
      (none, tr ++ [Ev.stderr "ftdi_new failed\n"])
    else
      let tr := match options.deviceSerial with
        | some serial => tr ++ [Ev.usbOpen options.vendor options.product (some serial) 0]
        | none => tr ++ [Ev.usbOpen options.vendor options.product none options.deviceId]
      if env.usbOpen < 0 then
        (none, closeAndFree (tr ++ [Ev.stderr "Unable to open ftdi device: %d (%s)\n"]))
      else
        let tr := tr ++ [Ev.readEeprom]
        if env.readEeprom < 0 then
          (none, closeAndFree (tr ++ [Ev.stderr "Unable to read ftdi eeprom: %d (%s)\n"]))
        else
          let fret := env.eepromDecode tr
          let tr := tr ++ [Ev.eepromDecode 0]
          if fret < 0 then
            (none, closeAndFree (tr ++ [Ev.stderr "Unable to decode ftdi eeprom: %d (%s)\n"]))
          else if wantType then
            let tr := tr ++ [Ev.eepromGetStrings]
            let tmpDeviceType := getDeviceTypeFromString env.productStr
            if tmpDeviceType = CCDT_MAX then
              (none, closeAndFree
                (tr ++ [Ev.stderr "Invalid device type. Device probably not configured!\n"]))
            else
              (some (some tmpDeviceType), tr)
          else
            (some none, tr)

def showInfo (env : Env) (options : Options) : Int × List Ev :=
  match openDevice env options false [] with
  | (none, tr) => (EXIT_FAILURE, tr)
  | (some _, tr) =>
    let fret := env.eepromDecode tr
    let tr := tr ++ [Ev.eepromDecode 1]
    if fret < 0 then
      (EXIT_FAILURE, closeAndFree (tr ++ [Ev.stderr "Unable to decode ftdi eeprom: %d (%s)\n"]))
    else
      (EXIT_SUCCESS, tr)

/-- One EEPROM set-up call of `setSerial`: the event, then the rest when the
call did not fail, and the diagnostic and `finish_him` when it did. -/
def eepromStep (env : Env) (tr : List Ev) (e : Ev) (msg : String)
    (rest : List Ev → Int × List Ev) : Int × List Ev :=
  let f := env.eepromCall tr
  let tr := tr ++ [e]
  if f < 0 then (EXIT_FAILURE, closeAndFree (tr ++ [Ev.stderr msg]))
  else rest tr

def setSerial (env : Env) (serialNumber : String) (options : Options) : Int × List Ev :=
  match options.deviceType with
  | none => (EXIT_FAILURE, [Ev.stderr "Device type not specified\n"])
  | some type =>
    match openDevice env options false [] with
    | (none, tr) => (EXIT_FAILURE, tr)
    | (some _, tr) =>
      let strs := "Unable to set eeprom strings: %d (%s)\n"
      let val := "Unable to set eeprom value: %d (%s)\n"
      let io := EepromSetting.CBUSH_IOMODE
      eepromStep env tr (Ev.eepromInitDefaults "SRPOL" type serialNumber) strs fun tr =>
      eepromStep env tr (Ev.setEepromValue VENDOR_ID (.num SAMSUNG_VENDOR)) strs fun tr =>
      eepromStep env tr (Ev.setEepromValue PRODUCT_ID (.num PRODUCT)) strs fun tr =>
      let build := fun tr =>
        eepromStep env tr Ev.eepromBuild "Unable to build eeprom: %d (%s)\n" fun tr =>
        eepromStep env tr Ev.writeEeprom "Unable to write eeprom into device: %d (%s)\n" fun tr =>
        (EXIT_SUCCESS, closeAndFree tr)
      let usbmux := fun tr =>
        if getDeviceTypeFromString type = CCDT_USBMUX then
          eepromStep env tr (Ev.setEepromValue CBUS_FUNCTION_0 io) val fun tr =>
          eepromStep env tr (Ev.setEepromValue CBUS_FUNCTION_1 io) val fun tr =>
          eepromStep env tr (Ev.setEepromValue CBUS_FUNCTION_2 io) val fun tr =>
          eepromStep env tr (Ev.setEepromValue CBUS_FUNCTION_3 io) val build
        else build tr
      if getDeviceTypeFromString type = CCDT_SDWIRE then
        eepromStep env tr (Ev.setEepromValue CBUS_FUNCTION_0 io) val usbmux
      else usbmux tr

/-! ## Pin access -/

def writePins (env : Env) (tr : List Ev) (pins : Nat) : Int × List Ev :=
  let f := env.writeData tr pins
  let tr := tr ++ [Ev.writeData pins]
  if f < 0 then
    (EXIT_FAILURE, tr ++ [Ev.stderr "write failed for 0x%x, error %d (%s)\n"])
  else
    (EXIT_SUCCESS, tr)

/-- The function `prepareDevice`.  Argument `wantPins` says that the pointer
`pins` is not null, `pins` is what the caller's variable holds at the call.  The
result is `none` for a null context, otherwise the caller's `pins` and
`deviceType` after the call. -/
def prepareDevice (env : Env) (options : Options) (wantPins : Bool) (pins : Nat) :
    Option (Nat × CCDeviceType) × List Ev :=
  match openDevice env options true [] with
  | (none, tr) => (none, tr)
  | (some stored, tr) =>
    let deviceType := stored.getD env.uninitType
    if deviceType = CCDT_SDWIRE ∨ deviceType = CCDT_USBMUX then
      (some (pins, deviceType), tr)
    else
      let f := env.setBitmode tr 0xFF BITMODE_BITBANG
      let tr := tr ++ [Ev.setBitmode 0xFF BITMODE_BITBANG]
      if f < 0 then
        (none, closeAndFree (tr ++ [Ev.stderr "Unable to enable bitbang mode: %d (%s)\n"]))
      else if wantPins then
        let r := env.readData tr
        let tr := tr ++ [Ev.readData]
        if r.1 < 0 then
          (none, closeAndFree (tr ++ [Ev.stderr "read failed, error %d (%s)\n"]))
        else
          (some (r.2 % 256, deviceType), tr)
      else
        (some (pins, deviceType), tr)

/-! ## Power pulses -/

/-- The function `powerOff`: exit status, the caller's `pins` afterwards, trace. -/
def powerOff (env : Env) (tr : List Ev) (pins : Nat) : Int × Nat × List Ev :=
  -- Turn on the coil
  let pins := setBits pins POWER_SW_ON
  let pins := clearBits pins POWER_SW_OFF
  match writePins env tr pins with
  | (ret, tr) =>
    if ret ≠ EXIT_SUCCESS then (EXIT_FAILURE, pins, tr)
    else
      -- Wait for 100ms
      let tr := tr ++ [Ev.usleep DELAY_100MS]
      -- Turn off the coil
      let pins := setBits pins POWER_SW_OFF
      match writePins env tr pins with
      | (ret, tr) =>
        if ret ≠ EXIT_SUCCESS then (EXIT_FAILURE, pins, tr)
        else (EXIT_SUCCESS, pins, tr)

/-- The function `powerOn`: exit status, the caller's `pins` afterwards, trace. -/
def powerOn (env : Env) (tr : List Ev) (pins : Nat) : Int × Nat × List Ev :=
  -- Turn on the coil
  let pins := setBits pins POWER_SW_OFF
  let pins := clearBits pins POWER_SW_ON
  match writePins env tr pins with
  | (ret, tr) =>
    if ret ≠ EXIT_SUCCESS then (EXIT_FAILURE, pins, tr)
    else
      -- Wait for 100ms
      let tr := tr ++ [Ev.usleep DELAY_100MS]
      -- Turn off the coil
      let pins := setBits pins POWER_SW_ON
      match writePins env tr pins with
      | (ret, tr) =>
        if ret ≠ EXIT_SUCCESS then (EXIT_FAILURE, pins, tr)
        else (EXIT_SUCCESS, pins, tr)

/-- The argument of `usleep(period * 1000)`, as the unsigned 32-bit value. -/
def periodMicros (options : Options) : Int :=
  let period := if options.tickTime > 0 then options.tickTime else 1000
  (period * 1000) % 4294967296

/-- The function `doPower`; its parameter `on` is written `on_` here. -/
def doPower (env : Env) (off on_ : Bool) (options : Options) : Int × List Ev :=
  match prepareDevice env options true env.uninitPins with
  | (none, tr) => (EXIT_FAILURE, tr)
  | (some (pins, deviceType), tr) =>
    if ¬ hasFeature deviceType CCF_POWERSWITCH then
      (EXIT_FAILURE,
        closeAndFree (tr ++ [Ev.stderr "Power switching is not available on this device.\n"]))
    else
      match powerOff env tr pins with
      | (ret, pins, tr) =>
        if off = true ∧ ret ≠ EXIT_SUCCESS then (EXIT_FAILURE, closeAndFree tr)
        else
          -- Wait for specified period in ms
          let tr := tr ++ [Ev.usleep (periodMicros options)]
          match powerOn env tr pins with
          | (ret, _, tr) =>
            if on_ = true ∧ ret ≠ EXIT_SUCCESS then (EXIT_FAILURE, closeAndFree tr)
            else (ret, closeAndFree tr)

/-! ## Target selection, raw pins, status, dynamic jumpers -/

/-- The statement `ret |= ftdi_set_bitmode(ftdi, pinState, BITMODE_CBUS)`. -/
def cbusWrite (env : Env) (ret : Int) (tr : List Ev) (pinState : Nat) : Int × List Ev :=
  (Int.lor ret (env.setBitmode tr pinState BITMODE_CBUS),
    tr ++ [Ev.setBitmode pinState BITMODE_CBUS])

def selectTarget (env : Env) (target : Target) (options : Options) : Int × List Ev :=
  match prepareDevice env options true env.uninitPins with
  | (none, tr) => (EXIT_FAILURE, tr)
  | (some (pins, deviceType), tr) =>
    let ret := EXIT_SUCCESS
    if deviceType = CCDT_SDWIRE then
      let pinState := 0x00
      let pinState := setBits pinState 0xF0
      let pinState := setBits pinState (if target = T_DUT then 0x00 else 0x01)
      match cbusWrite env ret tr pinState with
      | (ret, tr) => (ret, closeAndFree tr)
    else if deviceType = CCDT_USBMUX then
      let pinState := 0xF0
      if target = T_DUT then
        let pinState := clearBits pinState UM_DEVICE_PWR
        match cbusWrite env ret tr pinState with
        | (ret, tr) =>
          let tr := tr ++ [Ev.usleep DELAY_500MS]
          let pinState := setBits pinState UM_DEVICE_PWR
          match cbusWrite env ret tr pinState with
          | (ret, tr) =>
            let tr := tr ++ [Ev.usleep DELAY_100MS]
            let pinState := setBits pinState UM_DUT_LED
            let pinState := clearBits pinState UM_SOCKET_SEL
            let pinState := clearBits pinState UM_GP_LED
            match cbusWrite env ret tr pinState with
            | (ret, tr) => (ret, closeAndFree tr)
      else
        let pinState := clearBits pinState UM_DUT_LED
        let pinState := clearBits pinState UM_DEVICE_PWR
        match cbusWrite env ret tr pinState with
        | (ret, tr) =>
          let tr := tr ++ [Ev.usleep DELAY_500MS]
          let pinState := setBits pinState UM_DEVICE_PWR
          match cbusWrite env ret tr pinState with
          | (ret, tr) =>
            let tr := tr ++ [Ev.usleep DELAY_100MS]
            let pinState := setBits pinState UM_SOCKET_SEL
            let pinState := setBits pinState UM_GP_LED
            match cbusWrite env ret tr pinState with
            | (ret, tr) => (ret, closeAndFree tr)
    -- Currently only old SD-MUX is the other device so do the job in its style.
    else if target = T_DUT then
      let pins := clearBits pins USB_SEL
      let pins := clearBits pins SOCKET_SEL
      match powerOn env tr pins with  -- Also selects USB and SD
      | (r, _, tr) =>
        if r ≠ EXIT_SUCCESS then (EXIT_FAILURE, closeAndFree tr)
        else (ret, closeAndFree tr)
    else
      let pins := setBits pins USB_SEL
      let pins := setBits pins SOCKET_SEL
      match powerOff env tr pins with  -- Also selects USB and SD
      | (r, _, tr) =>
        if r ≠ EXIT_SUCCESS then (EXIT_FAILURE, closeAndFree tr)
        else (ret, closeAndFree tr)

/-- The function `doInit`.  Its two steps are two sessions with the device;
`env1` answers during the first and `env2` during the second. -/
def doInit (env1 env2 : Env) (options : Options) : Int × List Ev :=
  match doPower env1 true false options with
  | (r1, tr1) =>
    if r1 ≠ EXIT_SUCCESS then (EXIT_FAILURE, tr1)
    else
      match selectTarget env2 T_TS options with
      | (r2, tr2) =>
        if r2 ≠ EXIT_SUCCESS then (EXIT_FAILURE, tr1 ++ tr2)
        else (EXIT_SUCCESS, tr1 ++ tr2)

/-- The function `setPins`; its `unsigned char` argument is `pins % 256`. -/
def setPins (env : Env) (pins : Nat) (options : Options) : Int × List Ev :=
  let pins := pins % 256
  match prepareDevice env options false env.uninitPins with
  | (none, tr) => (EXIT_FAILURE, tr)
  | (some (_, deviceType), tr) =>
    let pins := if options.deviceSerial ≠ none then (0xFF ^^^ pins) % 256 else pins
    if deviceType = CCDT_SDWIRE then
      -- SDWire has only one pin already controlled by selectTarget function.
      (EXIT_FAILURE, tr)
    else
      let tr := tr ++ [Ev.stdout ("Write data: 0x" ++ hex pins ++ "\n")]
      match writePins env tr pins with
      | (ret, tr) => (ret, closeAndFree tr)

/-- The text the status lines print for a routing bit. -/
def sideName (b : Bool) : String := if b then "TS" else "DUT"

def showStatus (env : Env) (options : Options) : Int × List Ev :=
  let ret : Int := 0
  match prepareDevice env options true env.uninitPins with
  | (none, tr) => (EXIT_FAILURE, tr)
  | (some (pins, deviceType), tr) =>
    if deviceType = CCDT_SDWIRE then
      let r := env.readPins tr
      let tr := tr ++ [Ev.readPins]
      if r.1 ≠ 0 then
        (EXIT_FAILURE, closeAndFree (tr ++ [Ev.stderr "Error reading pins state.\n"]))
      else
        let pins := r.2 % 256
        (ret, closeAndFree
          (tr ++ [Ev.stdout ("SD connected to: " ++ sideName (testBits pins SOCKET_SEL) ++ "\n")]))
    else if deviceType = CCDT_USBMUX then
      let r := env.readPins tr
      let tr := tr ++ [Ev.readPins]
      if r.1 ≠ 0 then
        (EXIT_FAILURE, closeAndFree (tr ++ [Ev.stderr "Error reading pins state.\n"]))
      else
        let pins := r.2 % 256
        if pins = 0xff then
          (ret, closeAndFree (tr ++ [Ev.stdout "Device not initialized!\n"]))
        else
          (ret, closeAndFree
            (tr ++ [Ev.stdout
              ("SD connected to: " ++ sideName (testBits pins UM_SOCKET_SEL) ++ "\n")]))
    -- Currently only old SD-MUX is the other device so do the job in its style.
    else if ¬ (testBits pins POWER_SW_ON ∧ testBits pins POWER_SW_OFF) then
      (ret, closeAndFree (tr ++ [Ev.stdout "Device not initialized!\n"]))
    else
      (ret, closeAndFree
        (tr ++ [Ev.stdout ("USB connected to: " ++ sideName (testBits pins USB_SEL) ++ "\n"),
                Ev.stdout ("SD connected to: " ++ sideName (testBits pins SOCKET_SEL) ++ "\n")]))

/-- The function `setDyPer`.  The result is `none` when `options[CCO_DyPer].args`
is the null pointer at the call of `strcasecmp`. -/
def setDyPer (env : Env) (cmd : CCCommand) (options : Options) : Option (Int × List Ev) :=
  let ret := EXIT_SUCCESS
  match prepareDevice env options true env.uninitPins with
  | (none, tr) => some (EXIT_FAILURE, tr)
  | (some (pins, deviceType), tr) =>
    if ¬ hasFeature deviceType CCF_DYPERS then
      some (EXIT_FAILURE, tr ++ [Ev.stderr "DyPers are not available on this device.\n"])
    else
      match options.dyPer with
      | none => none
      | some arg =>
        let write := fun (switchOn : Bool) =>
          let dyper := if cmd = CCC_DyPer1 then DYPER1 else DYPER2
          let pins := if switchOn then setBits pins dyper else clearBits pins dyper
          match writePins env tr pins with
          | (r, tr) =>
            if r ≠ EXIT_SUCCESS then some (EXIT_FAILURE, closeAndFree tr)
            else some (ret, closeAndFree tr)
        if strcasecmp STRON arg = 0 then write true
        else if strcasecmp STROFF arg = 0 then write false
        else
          some (ret, closeAndFree
            (tr ++ [Ev.stderr "Invalid DyPer argument! Use \"on\" or \"off\".\n"]))

/-! ## Vocabulary of the properties -/

/-- The device kind the product string of the EEPROM stands for. -/
def kindOf (env : Env) : CCDeviceType := getDeviceTypeFromString env.productStr

/-- The event of `ftdi_usb_open_desc_index` for the options: by serial number
when one is given, by index otherwise. -/
def usbOpenEv (options : Options) : Ev :=
  match options.deviceSerial with
  | some serial => Ev.usbOpen options.vendor options.product (some serial) 0
  | none => Ev.usbOpen options.vendor options.product none options.deviceId

/-- Every step of `openDevice` before the device kind is looked at succeeds: a
serial number or a device id is given, and `ftdi_new`, the opening of the USB
device and the reading and decoding of the EEPROM do not fail. -/
def TransportOpens (env : Env) (options : Options) : Prop :=
  ¬ (options.deviceSerial = none ∧ options.deviceId < 0) ∧ env.newOk = true ∧
    0 ≤ env.usbOpen ∧ 0 ≤ env.readEeprom ∧
    0 ≤ env.eepromDecode [Ev.ftdiNew, usbOpenEv options, Ev.readEeprom]

/-- The trace of an `openDevice` that succeeds and resolves the device kind. -/
def openedTrace (options : Options) : List Ev :=
  [Ev.ftdiNew, usbOpenEv options, Ev.readEeprom, Ev.eepromDecode 0, Ev.eepromGetStrings]

/-- The diagnostic of `openDevice` for a product string that names no kind. -/
def UNCONFIGURED : Ev := Ev.stderr "Invalid device type. Device probably not configured!\n"

/-- The line `showStatus` prints for a device that is not initialized. -/
def NOT_INITIALIZED : Ev := Ev.stdout "Device not initialized!\n"

/-- A pin write: a call of `ftdi_write_data`. -/
def Ev.isPinWrite : Ev → Bool
  | Ev.writeData _ => true
  | _ => false

/-- A mode-set: a call of `ftdi_set_bitmode`. -/
def Ev.isModeSet : Ev → Bool
  | Ev.setBitmode _ _ => true
  | _ => false

/-- A pin read: a call of `ftdi_read_data` or `ftdi_read_pins`. -/
def Ev.isPinRead : Ev → Bool
  | Ev.readData => true
  | Ev.readPins => true
  | _ => false

/-- The bytes given to `ftdi_write_data`, in order. -/
def pinWrites (tr : List Ev) : List Nat :=
  tr.filterMap fun e => match e with
    | Ev.writeData b => some b
    | _ => none

/-- The lines printed on standard output, in order. -/
def stdoutLines (tr : List Ev) : List String :=
  tr.filterMap fun e => match e with
    | Ev.stdout l => some l
    | _ => none

/-- The last pin byte a trace sends to the device, by `ftdi_write_data` or as
the absolute byte of a CBUS mode-set. -/
def lastWritten (tr : List Ev) : Option Nat :=
  tr.foldl (fun acc e => match e with
    | Ev.writeData b => some b
    | Ev.setBitmode b BITMODE_CBUS => some b
    | _ => acc) none

/-- The pin byte `showStatus` interprets, when it gets one: for SDWire and
USB-MUX the byte of a successful `ftdi_read_pins`, for the SD-MUX the byte
`prepareDevice` read; `none` when the device is not opened or the read fails. -/
def statusReadback (env : Env) (options : Options) : Option Nat :=
  match prepareDevice env options true env.uninitPins with
  | (none, _) => none
  | (some (pins, deviceType), tr) =>
    if deviceType = CCDT_SDWIRE ∨ deviceType = CCDT_USBMUX then
      if (env.readPins tr).1 ≠ 0 then none else some ((env.readPins tr).2 % 256)
    else some pins

/-- The two power bits of a byte are left out: what remains of `x`. -/
def otherBits (x : Nat) : Nat := clearBits (clearBits x POWER_SW_ON) POWER_SW_OFF

/-- Two strings are equal but for the case of their letters. -/
def EqIgnoreCase (a b : String) : Prop :=
  a.toList.map Char.toLower = b.toList.map Char.toLower

/-- The transport handle as a flag: the opening of the USB device sets it and
`ftdi_free` clears it. -/
def handleOpen (tr : List Ev) : Bool :=
  tr.foldl (fun st e => match e with
    | Ev.usbOpen _ _ _ _ => true
    | Ev.ftdiFree => false
    | _ => st) false

/-- The number of calls of `ftdi_usb_close` in a trace. -/
def closeCount (tr : List Ev) : Nat := (tr.filter fun e => e = Ev.usbClose).length

/-- The number of calls of `ftdi_free` in a trace. -/
def freeCount (tr : List Ev) : Nat := (tr.filter fun e => e = Ev.ftdiFree).length

/-- The masks and modes given to `ftdi_set_bitmode`, in order. -/
def modeSets (tr : List Ev) : List (Nat × BitMode) :=
  tr.filterMap fun e => match e with
    | Ev.setBitmode m mode => some (m, mode)
    | _ => none

/-! ## Concrete environments -/

/-- Options naming the first device. -/
def demoOptions : Options := { defaultOptions with deviceId := 0 }

/-- A transport on which every call succeeds; the EEPROM names `product` and
every pin read gives `pins`. -/
def demoEnv (product : String) (pins : Nat) : Env where
  newOk := true
  usbOpen := 0
  readEeprom := 0
  eepromDecode := fun _ => 0
  productStr := product
  eepromCall := fun _ => 0
  setBitmode := fun _ _ _ => 0
  readData := fun _ => (1, pins)
  readPins := fun _ => (0, pins)
  writeData := fun _ _ => 1
  uninitPins := 0
  uninitType := CCDT_MAX

/-- As `demoEnv`, but every `ftdi_write_data` fails. -/
def writeFailEnv (product : String) (pins : Nat) : Env :=
  { demoEnv product pins with writeData := fun _ _ => -1 }

/-- As `demoEnv`, but the device goes away during the delay of 1 s between the
pulses: `ftdi_write_data` fails from then on, so the on pulse fails at its
first write. -/
def onPulseFailEnv (product : String) (pins : Nat) : Env :=
  { demoEnv product pins with
    writeData := fun tr _ => if Ev.usleep 1000000 ∈ tr then -1 else 1 }

/-- As `demoEnv`, but `ftdi_write_data` fails until the delay of 1 s between the
pulses has passed, so the off pulse fails at its first write. -/
def offPulseFailEnv (product : String) (pins : Nat) : Env :=
  { demoEnv product pins with
    writeData := fun tr _ => if Ev.usleep 1000000 ∈ tr then 1 else -1 }

/-- Options naming the device by the serial number `serial`; `--invert` is not given. -/
def serialOptions (serial : String) : Options :=
  { defaultOptions with deviceSerial := some serial }

/-- Options naming the first device, with `--invert` given. -/
def invertOptions : Options := { defaultOptions with deviceId := 0, bitsInvert := 1 }

/-- Options naming the first device, with the argument `arg` of `--dyper1` or
`--dyper2`. -/
def dyPerOptions (arg : String) : Options :=
  { defaultOptions with deviceId := 0, dyPer := some arg }

/-- As `demoEnv`, but every `ftdi_set_bitmode` fails with -1. -/
def modeSetFailEnv (product : String) (pins : Nat) : Env :=
  { demoEnv product pins with setBitmode := fun _ _ _ => -1 }

/-- As `demoEnv`, but the second decoding of the EEPROM, the one `showInfo` asks
for, fails. -/
def infoFailEnv (product : String) (pins : Nat) : Env :=
  { demoEnv product pins with
    eepromDecode := fun tr => if Ev.eepromDecode 0 ∈ tr then -1 else 0 }

/-! ## Theorems -/

/-! ### Strings -/

theorem char_toNat_ne_zero {c : Char} (h : c ≠ Char.ofNat 0) : (c.toNat : Int) ≠ 0 := by
  intro h0
  apply h
  have h1 : c.toNat = 0 := by exact_mod_cast h0
  rw [← Char.ofNat_toNat c, h1]

theorem char_toNat_sub_ne_zero {a b : Char} (h : a ≠ b) :
    (a.toNat : Int) - (b.toNat : Int) ≠ 0 := by
  intro h0
  apply h
  have h1 : a.toNat = b.toNat := by omega
  rw [← Char.ofNat_toNat a, ← Char.ofNat_toNat b, h1]

/-- On NUL-free character lists `strcmp` answers zero exactly for equal lists. -/
theorem strcmpAux_eq_zero_iff :
    ∀ (a b : List Char), (∀ c ∈ a, c ≠ Char.ofNat 0) → (∀ c ∈ b, c ≠ Char.ofNat 0) →
      (strcmpAux a b = 0 ↔ a = b)
  | [], [], _, _ => by simp [strcmpAux]
  | [], c :: cs, _, hb => by
    have hc := char_toNat_ne_zero (hb c (List.mem_cons_self c cs))
    simp only [strcmpAux]
    constructor
    · intro h0
      exact absurd (by omega) hc
    · intro h0
      cases h0
  | c :: cs, [], ha, _ => by
    have hc := char_toNat_ne_zero (ha c (List.mem_cons_self c cs))
    simp only [strcmpAux]
    constructor
    · intro h0
      exact absurd h0 hc
    · intro h0
      cases h0
  | x :: xs, y :: ys, ha, hb => by
    have ih := strcmpAux_eq_zero_iff xs ys
      (fun c hc => ha c (List.mem_cons_of_mem x hc))
      (fun c hc => hb c (List.mem_cons_of_mem y hc))
    simp only [strcmpAux]
    by_cases hxy : x = y
    · subst hxy
      simp [ih]
    · simp [hxy, char_toNat_sub_ne_zero hxy]

theorem strcmp_eq_zero_iff (a b : String) (ha : NulFree a) (hb : NulFree b) :
    strcmp a b = 0 ↔ a = b := by
  unfold strcmp
  rw [strcmpAux_eq_zero_iff a.toList b.toList ha hb]
  constructor
  · intro h
    exact String.ext h
  · intro h
    rw [h]

theorem nulFree_sdmux : NulFree CCDT_SDMUX_STR := by
  intro c hc
  simp [String.toList] at hc
  rcases hc with h | h | h | h | h | h <;> subst h <;> decide

theorem nulFree_sdwire : NulFree CCDT_SDWIRE_STR := by
  intro c hc
  simp [String.toList] at hc
  rcases hc with h | h | h | h | h | h | h <;> subst h <;> decide

theorem nulFree_usbmux : NulFree CCDT_USBMUX_STR := by
  intro c hc
  simp [String.toList] at hc
  rcases hc with h | h | h | h | h | h | h <;> subst h <;> decide

/-! ### Opening and preparing the device -/

/-- The function `openDevice` case by case, with the trace of each case. -/
theorem openDevice_nf (env : Env) (options : Options) (w : Bool) :
    openDevice env options w [] =
      if options.deviceSerial = none ∧ options.deviceId < 0 then
        (none, [Ev.stderr "No serial number or device id provided!\n"])
      else if env.newOk = false then
        (none, [Ev.ftdiNew, Ev.stderr "ftdi_new failed\n"])
      else if env.usbOpen < 0 then
        (none, [Ev.ftdiNew, usbOpenEv options,
          Ev.stderr "Unable to open ftdi device: %d (%s)\n", Ev.usbClose, Ev.ftdiFree])
      else if env.readEeprom < 0 then
        (none, [Ev.ftdiNew, usbOpenEv options, Ev.readEeprom,
          Ev.stderr "Unable to read ftdi eeprom: %d (%s)\n", Ev.usbClose, Ev.ftdiFree])
      else if env.eepromDecode [Ev.ftdiNew, usbOpenEv options, Ev.readEeprom] < 0 then
        (none, [Ev.ftdiNew, usbOpenEv options, Ev.readEeprom, Ev.eepromDecode 0,
          Ev.stderr "Unable to decode ftdi eeprom: %d (%s)\n", Ev.usbClose, Ev.ftdiFree])
      else if w = true then
        if kindOf env = CCDT_MAX then
          (none, openedTrace options ++ [UNCONFIGURED, Ev.usbClose, Ev.ftdiFree])
        else (some (some (kindOf env)), openedTrace options)
      else (some none, [Ev.ftdiNew, usbOpenEv options, Ev.readEeprom, Ev.eepromDecode 0]) := by
  unfold openDevice closeAndFree openedTrace UNCONFIGURED kindOf usbOpenEv
  cases hs : options.deviceSerial <;>
    simp only [List.nil_append, List.cons_append, List.append_nil, List.singleton_append]

/-- The event of opening the USB device is an opening, whatever the options. -/
theorem usbOpenEv_eq (options : Options) :
    ∃ v p s i, usbOpenEv options = Ev.usbOpen v p s i := by
  unfold usbOpenEv
  cases options.deviceSerial <;> exact ⟨_, _, _, _, rfl⟩

/-- What `openDevice` does when the transport opens: the kind decides. -/
theorem openDevice_of_opens (env : Env) (options : Options)
    (h : TransportOpens env options) :
    openDevice env options true [] =
      if kindOf env = CCDT_MAX then
        (none, openedTrace options ++ [UNCONFIGURED, Ev.usbClose, Ev.ftdiFree])
      else (some (some (kindOf env)), openedTrace options) := by
  obtain ⟨h1, h2, h3, h4, h5⟩ := h
  rw [openDevice_nf, if_neg h1, if_neg (by simp [h2]), if_neg (not_lt.mpr h3),
    if_neg (not_lt.mpr h4), if_neg (not_lt.mpr h5), if_pos rfl]

/-- What `openDevice` does when the transport does not open: it fails, without
the diagnostic of an unconfigured device. -/
theorem openDevice_of_not_opens (env : Env) (options : Options) (w : Bool)
    (h : ¬ TransportOpens env options) :
    (openDevice env options w []).1 = none ∧ UNCONFIGURED ∉ (openDevice env options w []).2 := by
  obtain ⟨v, p, s, i, hu⟩ := usbOpenEv_eq options
  unfold TransportOpens at h
  rw [openDevice_nf]
  by_cases h1 : options.deviceSerial = none ∧ options.deviceId < 0
  · rw [if_pos h1]
    simp [UNCONFIGURED]
  · rw [if_neg h1]
    by_cases h2 : env.newOk = false
    · rw [if_pos h2]
      simp [UNCONFIGURED]
    · rw [if_neg h2]
      by_cases h3 : env.usbOpen < 0
      · rw [if_pos h3]
        simp [UNCONFIGURED, hu]
      · rw [if_neg h3]
        by_cases h4 : env.readEeprom < 0
        · rw [if_pos h4]
          simp [UNCONFIGURED, hu]
        · rw [if_neg h4]
          by_cases h5 : env.eepromDecode [Ev.ftdiNew, usbOpenEv options, Ev.readEeprom] < 0
          · rw [if_pos h5]
            simp [UNCONFIGURED, hu]
          · exfalso
            apply h
            refine ⟨h1, by simpa using h2, not_lt.mp h3, not_lt.mp h4, not_lt.mp h5⟩

/-- A successful `openDevice` that was asked for the kind stored the kind of
the product string, which is one of the three known kinds. -/
theorem openDevice_some (env : Env) (options : Options) (stored : Option CCDeviceType)
    (tr : List Ev) (h : openDevice env options true [] = (some stored, tr)) :
    stored = some (kindOf env) ∧ kindOf env ≠ CCDT_MAX ∧ TransportOpens env options ∧
      tr = openedTrace options := by
  by_cases ho : TransportOpens env options
  · rw [openDevice_of_opens env options ho] at h
    by_cases hk : kindOf env = CCDT_MAX
    · rw [if_pos hk] at h
      cases h
    · rw [if_neg hk] at h
      simp only [Prod.mk.injEq, Option.some.injEq] at h
      exact ⟨h.1.symm, hk, ho, h.2.symm⟩
  · have h1 := (openDevice_of_not_opens env options true ho).1
    rw [h] at h1
    cases h1

/-- The trace of `openDevice` prints nothing on standard output and has no pin
write, mode-set or pin read. -/
theorem openDevice_trace (env : Env) (options : Options) (w : Bool) :
    stdoutLines (openDevice env options w []).2 = [] ∧
      lastWritten (openDevice env options w []).2 = none ∧
      ∀ e ∈ (openDevice env options w []).2,
        e.isPinWrite = false ∧ e.isModeSet = false ∧ e.isPinRead = false := by
  obtain ⟨v, p, s, i, hu⟩ := usbOpenEv_eq options
  rw [openDevice_nf]
  split_ifs <;>
    simp [stdoutLines, lastWritten, Ev.isPinWrite, Ev.isModeSet, Ev.isPinRead, hu, openedTrace,
      UNCONFIGURED]

/-- What `prepareDevice` does when the transport opens, case by case. -/
theorem prepareDevice_of_opens (env : Env) (options : Options) (w : Bool) (p : Nat)
    (h : TransportOpens env options) :
    prepareDevice env options w p =
      if kindOf env = CCDT_MAX then
        (none, openedTrace options ++ [UNCONFIGURED, Ev.usbClose, Ev.ftdiFree])
      else if kindOf env = CCDT_SDWIRE ∨ kindOf env = CCDT_USBMUX then
        (some (p, kindOf env), openedTrace options)
      else if env.setBitmode (openedTrace options) 0xFF BITMODE_BITBANG < 0 then
        (none, openedTrace options ++ [Ev.setBitmode 0xFF BITMODE_BITBANG,
          Ev.stderr "Unable to enable bitbang mode: %d (%s)\n", Ev.usbClose, Ev.ftdiFree])
      else if w = true then
        if (env.readData (openedTrace options ++ [Ev.setBitmode 0xFF BITMODE_BITBANG])).1 < 0 then
          (none, openedTrace options ++ [Ev.setBitmode 0xFF BITMODE_BITBANG, Ev.readData,
            Ev.stderr "read failed, error %d (%s)\n", Ev.usbClose, Ev.ftdiFree])
        else
          ((some ((env.readData (openedTrace options ++
              [Ev.setBitmode 0xFF BITMODE_BITBANG])).2 % 256, kindOf env)),
            openedTrace options ++ [Ev.setBitmode 0xFF BITMODE_BITBANG, Ev.readData])
      else (some (p, kindOf env), openedTrace options ++ [Ev.setBitmode 0xFF BITMODE_BITBANG]) := by
  unfold prepareDevice
  rw [openDevice_of_opens env options h]
  by_cases hk : kindOf env = CCDT_MAX
  · simp only [hk, if_true]
  · simp only [hk, if_false, Option.getD_some]
    split_ifs <;> simp [closeAndFree]

/-- When the transport does not open, `prepareDevice` fails as `openDevice` did. -/
theorem prepareDevice_of_not_opens (env : Env) (options : Options) (w : Bool) (p : Nat)
    (h : ¬ TransportOpens env options) :
    prepareDevice env options w p = (none, (openDevice env options true []).2) := by
  have h1 := (openDevice_of_not_opens env options true h).1
  unfold prepareDevice
  rcases hod : openDevice env options true [] with ⟨r, tr⟩
  rw [hod] at h1
  simp only at h1
  subst h1
  rfl

/-- A successful `prepareDevice` resolved the kind of the product string, one
of the three known kinds, after the transport opened. -/
theorem prepareDevice_some (env : Env) (options : Options) (w : Bool) (p q : Nat)
    (k : CCDeviceType) (tr : List Ev)
    (h : prepareDevice env options w p = (some (q, k), tr)) :
    k = kindOf env ∧ k ≠ CCDT_MAX ∧ TransportOpens env options := by
  by_cases ho : TransportOpens env options
  · rw [prepareDevice_of_opens env options w p ho] at h
    split_ifs at h with h1 h2 h3 h4 h5 <;>
      simp only [Prod.mk.injEq, Option.some.injEq, reduceCtorEq, false_and] at h <;>
      exact ⟨h.1.2.symm, h.1.2 ▸ h1, ho⟩
  · rw [prepareDevice_of_not_opens env options w p ho] at h
    cases h

/-- The trace of `prepareDevice` prints nothing on standard output and sends no
pin byte. -/
theorem prepareDevice_trace (env : Env) (options : Options) (w : Bool) (p : Nat) :
    stdoutLines (prepareDevice env options w p).2 = [] ∧
      lastWritten (prepareDevice env options w p).2 = none ∧
      ∀ e ∈ (prepareDevice env options w p).2, e.isPinWrite = false := by
  by_cases ho : TransportOpens env options
  · obtain ⟨v, pr, s, i, hu⟩ := usbOpenEv_eq options
    rw [prepareDevice_of_opens env options w p ho]
    split_ifs <;>
      simp [stdoutLines, lastWritten, Ev.isPinWrite, hu, openedTrace, UNCONFIGURED]
  · rw [prepareDevice_of_not_opens env options w p ho]
    have h := openDevice_trace env options true
    exact ⟨h.1, h.2.1, fun e he => (h.2.2 e he).1⟩

/-- For a kind other than the SD-MUX the trace of `prepareDevice` is the trace of
`openDevice`, and the caller's `pins` is left as it was. -/
theorem prepareDevice_not_sdmux (env : Env) (options : Options) (w : Bool) (p : Nat)
    (hk : kindOf env ≠ CCDT_SDMUX) :
    prepareDevice env options w p = (none, (openDevice env options true []).2) ∨
      (prepareDevice env options w p = (some (p, kindOf env), (openDevice env options true []).2) ∧
        (kindOf env = CCDT_SDWIRE ∨ kindOf env = CCDT_USBMUX)) := by
  by_cases ho : TransportOpens env options
  · rw [prepareDevice_of_opens env options w p ho, openDevice_of_opens env options ho]
    by_cases h1 : kindOf env = CCDT_MAX
    · left
      simp only [h1, if_true]
    · have h2 : kindOf env = CCDT_SDWIRE ∨ kindOf env = CCDT_USBMUX := by
        cases hkk : kindOf env <;> simp_all
      right
      simp only [h1, if_false, h2, if_true, and_self]
  · left
    exact prepareDevice_of_not_opens env options w p ho

/-! ### Target selection on the CBUS kinds -/

/-- Claim C1. On a device prepared as SDWire or USB-MUX, when every CBUS mode-set
answers 0, `selectTarget` returns `EXIT_SUCCESS` and does exactly this after
the preparation: on SDWire one mode-set, of 0xF0 for DUT and of 0xF1 for TS; on
USB-MUX three mode-sets, 0xF0, then after 500 ms 0xF2, then after 100 ms 0xF6
for DUT and 0xFB for TS; then it closes and frees the context.  The bytes are
the ones the bit operations of the source give. -/
theorem selectTarget_cbus_sequence (env : Env) (options : Options) (p : Nat) (tr0 : List Ev)
    (hset : ∀ tr m, env.setBitmode tr m BITMODE_CBUS = 0) :
    (prepareDevice env options true env.uninitPins = (some (p, CCDT_SDWIRE), tr0) →
      selectTarget env T_DUT options =
        (EXIT_SUCCESS, tr0 ++ [Ev.setBitmode 0xF0 BITMODE_CBUS, Ev.usbClose, Ev.ftdiFree]) ∧
      selectTarget env T_TS options =
        (EXIT_SUCCESS, tr0 ++ [Ev.setBitmode 0xF1 BITMODE_CBUS, Ev.usbClose, Ev.ftdiFree])) ∧
    (prepareDevice env options true env.uninitPins = (some (p, CCDT_USBMUX), tr0) →
      selectTarget env T_DUT options =
        (EXIT_SUCCESS, tr0 ++ [Ev.setBitmode 0xF0 BITMODE_CBUS, Ev.usleep 500000,
          Ev.setBitmode 0xF2 BITMODE_CBUS, Ev.usleep 100000,
          Ev.setBitmode 0xF6 BITMODE_CBUS, Ev.usbClose, Ev.ftdiFree]) ∧
      selectTarget env T_TS options =
        (EXIT_SUCCESS, tr0 ++ [Ev.setBitmode 0xF0 BITMODE_CBUS, Ev.usleep 500000,
          Ev.setBitmode 0xF2 BITMODE_CBUS, Ev.usleep 100000,
          Ev.setBitmode 0xFB BITMODE_CBUS, Ev.usbClose, Ev.ftdiFree])) ∧
    0xF0 &&& (0xFF ^^^ UM_DEVICE_PWR) = 0xF0 ∧ 0xF0 ||| UM_DEVICE_PWR = 0xF2 ∧
    (0xF2 ||| UM_DUT_LED) &&& (0xFF ^^^ UM_SOCKET_SEL) &&& (0xFF ^^^ UM_GP_LED) = 0xF6 ∧
    0xF0 &&& (0xFF ^^^ UM_DUT_LED) &&& (0xFF ^^^ UM_DEVICE_PWR) = 0xF0 ∧
    0xF2 ||| UM_SOCKET_SEL ||| UM_GP_LED = 0xFB ∧
    0xFB &&& UM_DUT_LED = 0 := by
  refine ⟨?_, ?_, by decide, by decide, by decide, by decide, by decide, by decide⟩
  · intro hprep
    constructor <;>
    · unfold selectTarget
      rw [hprep]
      simp [cbusWrite, hset, closeAndFree, setBits, Int.lor]
  · intro hprep
    constructor <;>
    · unfold selectTarget
      rw [hprep]
      simp [cbusWrite, hset, closeAndFree, setBits, clearBits, Int.lor]
      decide

/-- Claim C1 at a concrete USB-MUX on which every call succeeds, for target TS. -/
theorem selectTarget_cbus_sequence_witness :
    (∀ tr m, (demoEnv "usb-mux" 0).setBitmode tr m BITMODE_CBUS = 0) ∧
    prepareDevice (demoEnv "usb-mux" 0) demoOptions true (demoEnv "usb-mux" 0).uninitPins =
      (some (0, CCDT_USBMUX), openedTrace demoOptions) ∧
    selectTarget (demoEnv "usb-mux" 0) T_TS demoOptions =
      (EXIT_SUCCESS, openedTrace demoOptions ++ [Ev.setBitmode 0xF0 BITMODE_CBUS,
        Ev.usleep 500000, Ev.setBitmode 0xF2 BITMODE_CBUS, Ev.usleep 100000,
        Ev.setBitmode 0xFB BITMODE_CBUS, Ev.usbClose, Ev.ftdiFree]) :=
  ⟨fun _ _ => rfl, by decide,
    ((selectTarget_cbus_sequence (demoEnv "usb-mux" 0) demoOptions 0 (openedTrace demoOptions)
      (fun _ _ => rfl)).2.1 (by decide)).2⟩

/-! ### The power pulses -/

/-- The function `writePins` by its two cases. -/
theorem writePins_eq (env : Env) (tr : List Ev) (b : Nat) :
    writePins env tr b =
      if env.writeData tr b < 0 then
        (EXIT_FAILURE, tr ++ [Ev.writeData b, Ev.stderr "write failed for 0x%x, error %d (%s)\n"])
      else (EXIT_SUCCESS, tr ++ [Ev.writeData b]) := by
  unfold writePins
  split_ifs with h <;> simp [h]

/-- The off pulse, case by case: the first write has `POWER_SW_ON` set and
`POWER_SW_OFF` cleared, the second, 100 ms later, has `POWER_SW_OFF` set too;
a write that fails ends the pulse. -/
theorem powerOff_eq (env : Env) (tr : List Ev) (p : Nat) :
    powerOff env tr p =
      if env.writeData tr (clearBits (setBits p POWER_SW_ON) POWER_SW_OFF) < 0 then
        (EXIT_FAILURE, clearBits (setBits p POWER_SW_ON) POWER_SW_OFF,
          tr ++ [Ev.writeData (clearBits (setBits p POWER_SW_ON) POWER_SW_OFF),
            Ev.stderr "write failed for 0x%x, error %d (%s)\n"])
      else if env.writeData
          (tr ++ [Ev.writeData (clearBits (setBits p POWER_SW_ON) POWER_SW_OFF),
            Ev.usleep DELAY_100MS])
          (setBits (clearBits (setBits p POWER_SW_ON) POWER_SW_OFF) POWER_SW_OFF) < 0 then
        (EXIT_FAILURE, setBits (clearBits (setBits p POWER_SW_ON) POWER_SW_OFF) POWER_SW_OFF,
          tr ++ [Ev.writeData (clearBits (setBits p POWER_SW_ON) POWER_SW_OFF),
            Ev.usleep DELAY_100MS,
            Ev.writeData (setBits (clearBits (setBits p POWER_SW_ON) POWER_SW_OFF) POWER_SW_OFF),
            Ev.stderr "write failed for 0x%x, error %d (%s)\n"])
      else
        (EXIT_SUCCESS, setBits (clearBits (setBits p POWER_SW_ON) POWER_SW_OFF) POWER_SW_OFF,
          tr ++ [Ev.writeData (clearBits (setBits p POWER_SW_ON) POWER_SW_OFF),
            Ev.usleep DELAY_100MS,
            Ev.writeData
              (setBits (clearBits (setBits p POWER_SW_ON) POWER_SW_OFF) POWER_SW_OFF)]) := by
  unfold powerOff
  simp only [writePins_eq]
  by_cases h1 : env.writeData tr (clearBits (setBits p POWER_SW_ON) POWER_SW_OFF) < 0
  · simp [h1]
  · by_cases h2 : env.writeData
        (tr ++ [Ev.writeData (clearBits (setBits p POWER_SW_ON) POWER_SW_OFF),
          Ev.usleep DELAY_100MS])
        (setBits (clearBits (setBits p POWER_SW_ON) POWER_SW_OFF) POWER_SW_OFF) < 0
    · simp [h1, h2]
    · simp [h1, h2]

/-- The on pulse, case by case: the first write has `POWER_SW_OFF` set and
`POWER_SW_ON` cleared, the second, 100 ms later, has `POWER_SW_ON` set too;
a write that fails ends the pulse. -/
theorem powerOn_eq (env : Env) (tr : List Ev) (p : Nat) :
    powerOn env tr p =
      if env.writeData tr (clearBits (setBits p POWER_SW_OFF) POWER_SW_ON) < 0 then
        (EXIT_FAILURE, clearBits (setBits p POWER_SW_OFF) POWER_SW_ON,
          tr ++ [Ev.writeData (clearBits (setBits p POWER_SW_OFF) POWER_SW_ON),
            Ev.stderr "write failed for 0x%x, error %d (%s)\n"])
      else if env.writeData
          (tr ++ [Ev.writeData (clearBits (setBits p POWER_SW_OFF) POWER_SW_ON),
            Ev.usleep DELAY_100MS])
          (setBits (clearBits (setBits p POWER_SW_OFF) POWER_SW_ON) POWER_SW_ON) < 0 then
        (EXIT_FAILURE, setBits (clearBits (setBits p POWER_SW_OFF) POWER_SW_ON) POWER_SW_ON,
          tr ++ [Ev.writeData (clearBits (setBits p POWER_SW_OFF) POWER_SW_ON),
            Ev.usleep DELAY_100MS,
            Ev.writeData (setBits (clearBits (setBits p POWER_SW_OFF) POWER_SW_ON) POWER_SW_ON),
            Ev.stderr "write failed for 0x%x, error %d (%s)\n"])
      else
        (EXIT_SUCCESS, setBits (clearBits (setBits p POWER_SW_OFF) POWER_SW_ON) POWER_SW_ON,
          tr ++ [Ev.writeData (clearBits (setBits p POWER_SW_OFF) POWER_SW_ON),
            Ev.usleep DELAY_100MS,
            Ev.writeData
              (setBits (clearBits (setBits p POWER_SW_OFF) POWER_SW_ON) POWER_SW_ON)]) := by
  unfold powerOn
  simp only [writePins_eq]
  by_cases h1 : env.writeData tr (clearBits (setBits p POWER_SW_OFF) POWER_SW_ON) < 0
  · simp [h1]
  · by_cases h2 : env.writeData
        (tr ++ [Ev.writeData (clearBits (setBits p POWER_SW_OFF) POWER_SW_ON),
          Ev.usleep DELAY_100MS])
        (setBits (clearBits (setBits p POWER_SW_OFF) POWER_SW_ON) POWER_SW_ON) < 0
    · simp [h1, h2]
    · simp [h1, h2]

/-! ### Traces -/

theorem lastWritten_append_of_none (a l : List Ev) (h : lastWritten a = none) :
    lastWritten (a ++ l) = lastWritten l := by
  unfold lastWritten at h ⊢
  rw [List.foldl_append, h]

theorem stdoutLines_append (a l : List Ev) :
    stdoutLines (a ++ l) = stdoutLines a ++ stdoutLines l := by
  unfold stdoutLines
  rw [List.filterMap_append]

theorem mem_stdoutLines (tr : List Ev) (l : String) :
    Ev.stdout l ∈ tr ↔ l ∈ stdoutLines tr := by
  unfold stdoutLines
  rw [List.mem_filterMap]
  constructor
  · intro h
    exact ⟨Ev.stdout l, h, rfl⟩
  · rintro ⟨e, he, hl⟩
    cases e <;> simp at hl
    subst hl
    exact he

/-- The pin byte `prepareDevice` reads from an SD-MUX is a byte. -/
theorem prepareDevice_sdmux_lt (env : Env) (options : Options) (p q : Nat) (tr : List Ev)
    (h : prepareDevice env options true p = (some (q, CCDT_SDMUX), tr)) : q < 256 := by
  obtain ⟨hk, -, ho⟩ := prepareDevice_some env options true p q CCDT_SDMUX tr h
  rw [prepareDevice_of_opens env options true p ho, ← hk] at h
  simp only [reduceCtorEq, if_false, or_self, if_true] at h
  split_ifs at h <;> simp only [Prod.mk.injEq, Option.some.injEq, reduceCtorEq, false_and] at h
  rw [← h.1.1]
  exact Nat.mod_lt _ (by decide)

set_option maxRecDepth 100000 in
/-- The last byte of a DUT selection on the SD-MUX: both power bits set, both
routing bits clear. -/
theorem sdmux_dut_byte : ∀ p < 256,
    let b := setBits (clearBits (setBits (clearBits (clearBits p USB_SEL) SOCKET_SEL)
      POWER_SW_OFF) POWER_SW_ON) POWER_SW_ON
    b < 256 ∧ testBits b POWER_SW_ON = true ∧ testBits b POWER_SW_OFF = true ∧
      testBits b USB_SEL = false ∧ testBits b SOCKET_SEL = false := by
  decide

set_option maxRecDepth 100000 in
/-- The last byte of a TS selection on the SD-MUX: both power bits set, both
routing bits set. -/
theorem sdmux_ts_byte : ∀ p < 256,
    let b := setBits (clearBits (setBits (setBits (setBits p USB_SEL) SOCKET_SEL)
      POWER_SW_ON) POWER_SW_OFF) POWER_SW_OFF
    b < 256 ∧ testBits b POWER_SW_ON = true ∧ testBits b POWER_SW_OFF = true ∧
      testBits b USB_SEL = true ∧ testBits b SOCKET_SEL = true := by
  decide

/-! ### The status report -/

theorem stdoutLines_nil : stdoutLines [] = [] := rfl

theorem stdoutLines_cons (e : Ev) (l : List Ev) :
    stdoutLines (e :: l) =
      (match e with
        | Ev.stdout s => [s]
        | _ => []) ++ stdoutLines l := by
  cases e <;> rfl


/-- What `showStatus` prints and returns when it gets a pin byte `b`: exit
status 0 and, by kind, the line of a device that is not initialized or the
routing lines. -/
theorem showStatus_of_readback (env : Env) (options : Options) (b : Nat)
    (h : statusReadback env options = some b) :
    (showStatus env options).1 = 0 ∧
    stdoutLines (showStatus env options).2 =
      if kindOf env = CCDT_SDWIRE then
        ["SD connected to: " ++ sideName (testBits b SOCKET_SEL) ++ "\n"]
      else if kindOf env = CCDT_USBMUX then
        if b = 0xff then ["Device not initialized!\n"]
        else ["SD connected to: " ++ sideName (testBits b UM_SOCKET_SEL) ++ "\n"]
      else if ¬ (testBits b POWER_SW_ON = true ∧ testBits b POWER_SW_OFF = true) then
        ["Device not initialized!\n"]
      else
        ["USB connected to: " ++ sideName (testBits b USB_SEL) ++ "\n",
          "SD connected to: " ++ sideName (testBits b SOCKET_SEL) ++ "\n"] := by
  unfold statusReadback at h
  unfold showStatus
  rcases hp : prepareDevice env options true env.uninitPins with ⟨_ | ⟨p, k⟩, tr0⟩
  · rw [hp] at h
    cases h
  · obtain ⟨hk, hmax, -⟩ := prepareDevice_some env options true _ p k tr0 hp
    have htr := (prepareDevice_trace env options true env.uninitPins).1
    rw [hp] at h htr
    simp only at h htr
    rw [← hk]
    cases k
    · simp only [reduceCtorEq, or_self, if_false, Option.some.injEq] at h
      subst h
      simp only [reduceCtorEq, if_false]
      split_ifs <;>
        simp [closeAndFree, stdoutLines_append, stdoutLines_cons, stdoutLines_nil, htr]
    · simp only [reduceCtorEq, or_false, if_true, ne_eq, ite_not] at h
      split_ifs at h with h0
      simp only [Option.some.injEq] at h
      subst h
      simp [h0, closeAndFree, stdoutLines_append, stdoutLines_cons, stdoutLines_nil, htr]
    · simp only [reduceCtorEq, or_true, if_true, ne_eq, ite_not] at h
      split_ifs at h with h0
      simp only [Option.some.injEq] at h
      subst h
      simp only [reduceCtorEq, if_false, if_true, h0, ne_eq, not_true_eq_false]
      split_ifs <;>
        simp [closeAndFree, stdoutLines_append, stdoutLines_cons, stdoutLines_nil, htr]
    · exact absurd rfl hmax

/-- Without a pin byte `showStatus` prints nothing on standard output. -/
theorem showStatus_of_no_readback (env : Env) (options : Options)
    (h : statusReadback env options = none) :
    stdoutLines (showStatus env options).2 = [] := by
  unfold statusReadback at h
  unfold showStatus
  rcases hp : prepareDevice env options true env.uninitPins with ⟨_ | ⟨p, k⟩, tr0⟩
  · have htr := (prepareDevice_trace env options true env.uninitPins).1
    rw [hp] at htr
    exact htr
  · obtain ⟨hk, hmax, -⟩ := prepareDevice_some env options true _ p k tr0 hp
    have htr := (prepareDevice_trace env options true env.uninitPins).1
    rw [hp] at h htr
    simp only at h htr
    cases k
    · simp at h
    · simp only [reduceCtorEq, or_false, if_true, ne_eq, ite_not] at h
      split_ifs at h with h0
      simp [h0, closeAndFree, stdoutLines_append, stdoutLines_cons, stdoutLines_nil, htr]
    · simp only [reduceCtorEq, or_true, if_true, ne_eq, ite_not] at h
      split_ifs at h with h0
      simp [h0, closeAndFree, stdoutLines_append, stdoutLines_cons, stdoutLines_nil, htr]
    · exact absurd rfl hmax

/-! ### Select, then status -/

/-- An on pulse that succeeds made both its writes. -/
theorem powerOn_success (env : Env) (tr : List Ev) (p : Nat)
    (h : (powerOn env tr p).1 = EXIT_SUCCESS) :
    powerOn env tr p =
      (EXIT_SUCCESS, setBits (clearBits (setBits p POWER_SW_OFF) POWER_SW_ON) POWER_SW_ON,
        tr ++ [Ev.writeData (clearBits (setBits p POWER_SW_OFF) POWER_SW_ON),
          Ev.usleep DELAY_100MS,
          Ev.writeData (setBits (clearBits (setBits p POWER_SW_OFF) POWER_SW_ON) POWER_SW_ON)]) := by
  rw [powerOn_eq] at h ⊢
  split_ifs at h ⊢
  · simp at h
  · simp at h
  · rfl

/-- An off pulse that succeeds made both its writes. -/
theorem powerOff_success (env : Env) (tr : List Ev) (p : Nat)
    (h : (powerOff env tr p).1 = EXIT_SUCCESS) :
    powerOff env tr p =
      (EXIT_SUCCESS, setBits (clearBits (setBits p POWER_SW_ON) POWER_SW_OFF) POWER_SW_OFF,
        tr ++ [Ev.writeData (clearBits (setBits p POWER_SW_ON) POWER_SW_OFF),
          Ev.usleep DELAY_100MS,
          Ev.writeData (setBits (clearBits (setBits p POWER_SW_ON) POWER_SW_OFF) POWER_SW_OFF)]) := by
  rw [powerOff_eq] at h ⊢
  split_ifs at h ⊢
  · simp at h
  · simp at h
  · rfl

/-- The last byte a successful `selectTarget` sent: on SDWire 0xF0 or 0xF1, on
USB-MUX 0xF6 or 0xFB, on the SD-MUX a byte with both power bits set and both
routing bits clear for DUT and set for TS. -/
theorem selectTarget_lastWritten (env : Env) (options : Options) (T : Target) (b : Nat)
    (hsel : (selectTarget env T options).1 = EXIT_SUCCESS)
    (hlast : lastWritten (selectTarget env T options).2 = some b) :
    (kindOf env = CCDT_SDWIRE ∧ b = if T = T_DUT then 0xF0 else 0xF1) ∨
    (kindOf env = CCDT_USBMUX ∧ b = if T = T_DUT then 0xF6 else 0xFB) ∨
    (kindOf env = CCDT_SDMUX ∧ testBits b POWER_SW_ON = true ∧
      testBits b POWER_SW_OFF = true ∧ testBits b USB_SEL = decide (T = T_TS) ∧
      testBits b SOCKET_SEL = decide (T = T_TS)) := by
  unfold selectTarget at hsel hlast
  rcases hp : prepareDevice env options true env.uninitPins with ⟨_ | ⟨p, k⟩, tr0⟩
  · rw [hp] at hsel
    cases hsel
  · obtain ⟨hk, hmax, -⟩ := prepareDevice_some env options true _ p k tr0 hp
    have hlw := (prepareDevice_trace env options true env.uninitPins).2.1
    rw [hp] at hsel hlast hlw
    simp only at hsel hlast hlw
    rw [← hk]
    cases k
    · have hp256 := prepareDevice_sdmux_lt env options _ p tr0 hp
      right; right
      cases T
      · have hb := sdmux_dut_byte p hp256
        simp only [reduceCtorEq, if_false, if_true] at hsel hlast
        by_cases hr : (powerOn env tr0 (clearBits (clearBits p USB_SEL) SOCKET_SEL)).1 = EXIT_SUCCESS
        · rw [powerOn_success _ _ _ hr] at hlast
          simp [closeAndFree, lastWritten_append_of_none _ _ hlw, lastWritten] at hlast
          subst hlast
          simpa using hb.2
        · exfalso
          rcases hpo : powerOn env tr0 (clearBits (clearBits p USB_SEL) SOCKET_SEL) with ⟨r, q, tr⟩
          rw [hpo] at hsel hr
          simp only at hsel hr
          simp [hr] at hsel
      · have hb := sdmux_ts_byte p hp256
        simp only [reduceCtorEq, if_false, if_true] at hsel hlast
        by_cases hr : (powerOff env tr0 (setBits (setBits p USB_SEL) SOCKET_SEL)).1 = EXIT_SUCCESS
        · rw [powerOff_success _ _ _ hr] at hlast
          simp [closeAndFree, lastWritten_append_of_none _ _ hlw, lastWritten] at hlast
          subst hlast
          simpa using hb.2
        · exfalso
          rcases hpo : powerOff env tr0 (setBits (setBits p USB_SEL) SOCKET_SEL) with ⟨r, q, tr⟩
          rw [hpo] at hsel hr
          simp only at hsel hr
          simp [hr] at hsel
    · left
      cases T <;>
        simp [cbusWrite, closeAndFree, lastWritten_append_of_none _ _ hlw, lastWritten,
          setBits] at hlast <;>
        simp [← hlast]
    · right; left
      cases T <;>
        simp [cbusWrite, closeAndFree, lastWritten_append_of_none _ _ hlw, lastWritten,
          setBits, clearBits] at hlast <;>
        simp [← hlast] <;> decide
    · exact absurd rfl hmax

/-- Claim C2. Select, then status: let `selectTarget` for target `T` succeed and
`b` be the last byte it sent, and let `showStatus` run on a device of the same
kind whose pin readback is `b`.  Then `showStatus` does not report that the
device is not initialized, and what it prints is exactly the routing lines of
the kind, each naming `T`: the USB and the SD line on the SD-MUX, the SD line
on SDWire and USB-MUX. -/
theorem select_then_status (env1 env2 : Env) (options1 options2 : Options) (T : Target)
    (b : Nat)
    (hsel : (selectTarget env1 T options1).1 = EXIT_SUCCESS)
    (hlast : lastWritten (selectTarget env1 T options1).2 = some b)
    (hkind : kindOf env2 = kindOf env1)
    (hread : statusReadback env2 options2 = some b) :
    NOT_INITIALIZED ∉ (showStatus env2 options2).2 ∧
    stdoutLines (showStatus env2 options2).2 =
      (if kindOf env1 = CCDT_SDMUX then
        if T = T_DUT then ["USB connected to: DUT\n", "SD connected to: DUT\n"]
        else ["USB connected to: TS\n", "SD connected to: TS\n"]
      else
        if T = T_DUT then ["SD connected to: DUT\n"] else ["SD connected to: TS\n"]) := by
  have hst := (showStatus_of_readback env2 options2 b hread).2
  have key : stdoutLines (showStatus env2 options2).2 =
      (if kindOf env1 = CCDT_SDMUX then
        if T = T_DUT then ["USB connected to: DUT\n", "SD connected to: DUT\n"]
        else ["USB connected to: TS\n", "SD connected to: TS\n"]
      else
        if T = T_DUT then ["SD connected to: DUT\n"] else ["SD connected to: TS\n"]) := by
    rw [hst, hkind]
    have hcases := selectTarget_lastWritten env1 options1 T b hsel hlast
    clear hsel hlast hst hread
    rcases hcases with ⟨hk, hb⟩ | ⟨hk, hb⟩ | ⟨hk, h1, h2, h3, h4⟩
    · rw [hk, hb]
      cases T <;> decide
    · rw [hk, hb]
      cases T <;> decide
    · rw [hk]
      simp only [reduceCtorEq, if_false, h1, h2, h3, h4, and_self, not_true_eq_false]
      cases T <;> decide
  refine ⟨?_, key⟩
  unfold NOT_INITIALIZED
  rw [mem_stdoutLines, key]
  clear hsel hlast hst hread key
  cases kindOf env1 <;> cases T <;> decide

/-- Claim C2 on an SDWire: `dut`, then `status` with the readback 0xF0 that `dut`
wrote, prints the one line that the SD card is connected to the DUT. -/
theorem select_then_status_witness :
    (selectTarget (demoEnv "sd-wire" 0) T_DUT demoOptions).1 = EXIT_SUCCESS ∧
    lastWritten (selectTarget (demoEnv "sd-wire" 0) T_DUT demoOptions).2 = some 0xF0 ∧
    statusReadback (demoEnv "sd-wire" 0xF0) demoOptions = some 0xF0 ∧
    stdoutLines (showStatus (demoEnv "sd-wire" 0xF0) demoOptions).2 =
      ["SD connected to: DUT\n"] :=
  ⟨by decide, by decide, by decide,
    (select_then_status (demoEnv "sd-wire" 0) (demoEnv "sd-wire" 0xF0) demoOptions demoOptions
      T_DUT 0xF0 (by decide) (by decide) (by decide) (by decide)).2⟩

/-! ### Power switching on the SD-MUX -/

theorem pinWrites_nil : pinWrites [] = [] := rfl

theorem pinWrites_cons (e : Ev) (l : List Ev) :
    pinWrites (e :: l) =
      (match e with
        | Ev.writeData b => [b]
        | _ => []) ++ pinWrites l := by
  cases e <;> rfl

theorem pinWrites_append (a l : List Ev) : pinWrites (a ++ l) = pinWrites a ++ pinWrites l := by
  unfold pinWrites
  rw [List.filterMap_append]

theorem mem_pinWrites (tr : List Ev) (b : Nat) : Ev.writeData b ∈ tr ↔ b ∈ pinWrites tr := by
  unfold pinWrites
  rw [List.mem_filterMap]
  constructor
  · intro h
    exact ⟨Ev.writeData b, h, rfl⟩
  · rintro ⟨e, he, hl⟩
    cases e <;> simp at hl
    subst hl
    exact he

/-- The trace of `prepareDevice` has no pin write. -/
theorem prepareDevice_pinWrites (env : Env) (options : Options) (w : Bool) (p : Nat) :
    pinWrites (prepareDevice env options w p).2 = [] := by
  have h := (prepareDevice_trace env options w p).2.2
  unfold pinWrites
  rw [List.filterMap_eq_nil_iff]
  intro e he
  have h1 := h e he
  cases e <;> simp [Ev.isPinWrite] at h1 ⊢

set_option maxRecDepth 100000 in
/-- Setting or clearing a power bit of a byte gives a byte with the same other
bits. -/
theorem power_bit_frame : ∀ x < 256,
    (setBits x POWER_SW_ON < 256 ∧ otherBits (setBits x POWER_SW_ON) = otherBits x) ∧
    (setBits x POWER_SW_OFF < 256 ∧ otherBits (setBits x POWER_SW_OFF) = otherBits x) ∧
    (clearBits x POWER_SW_ON < 256 ∧ otherBits (clearBits x POWER_SW_ON) = otherBits x) ∧
    (clearBits x POWER_SW_OFF < 256 ∧ otherBits (clearBits x POWER_SW_OFF) = otherBits x) := by
  decide

/-- The off pulse leaves the other bits alone: in the byte it hands back and in
every byte it writes, whether or not a write fails. -/
theorem powerOff_frame (env : Env) (tr : List Ev) (p : Nat) (hp : p < 256) :
    (powerOff env tr p).2.1 < 256 ∧ otherBits (powerOff env tr p).2.1 = otherBits p ∧
      ∃ l, (powerOff env tr p).2.2 = tr ++ l ∧ ∀ b ∈ pinWrites l, otherBits b = otherBits p := by
  have h1 := (power_bit_frame p hp).1
  have h2 := (power_bit_frame _ h1.1).2.2.2
  have h3 := (power_bit_frame _ h2.1).2.1
  rw [powerOff_eq]
  split_ifs
  · refine ⟨h2.1, h2.2.trans h1.2, _, rfl, ?_⟩
    simp [pinWrites_cons, pinWrites_nil, h2.2.trans h1.2]
  · refine ⟨h3.1, h3.2.trans (h2.2.trans h1.2), _, rfl, ?_⟩
    simp [pinWrites_cons, pinWrites_nil, h2.2.trans h1.2, h3.2.trans (h2.2.trans h1.2)]
  · refine ⟨h3.1, h3.2.trans (h2.2.trans h1.2), _, rfl, ?_⟩
    simp [pinWrites_cons, pinWrites_nil, h2.2.trans h1.2, h3.2.trans (h2.2.trans h1.2)]

/-- The on pulse leaves the other bits alone: in the byte it hands back and in
every byte it writes, whether or not a write fails. -/
theorem powerOn_frame (env : Env) (tr : List Ev) (p : Nat) (hp : p < 256) :
    (powerOn env tr p).2.1 < 256 ∧ otherBits (powerOn env tr p).2.1 = otherBits p ∧
      ∃ l, (powerOn env tr p).2.2 = tr ++ l ∧ ∀ b ∈ pinWrites l, otherBits b = otherBits p := by
  have h1 := (power_bit_frame p hp).2.1
  have h2 := (power_bit_frame _ h1.1).2.2.1
  have h3 := (power_bit_frame _ h2.1).1
  rw [powerOn_eq]
  split_ifs
  · refine ⟨h2.1, h2.2.trans h1.2, _, rfl, ?_⟩
    simp [pinWrites_cons, pinWrites_nil, h2.2.trans h1.2]
  · refine ⟨h3.1, h3.2.trans (h2.2.trans h1.2), _, rfl, ?_⟩
    simp [pinWrites_cons, pinWrites_nil, h2.2.trans h1.2, h3.2.trans (h2.2.trans h1.2)]
  · refine ⟨h3.1, h3.2.trans (h2.2.trans h1.2), _, rfl, ?_⟩
    simp [pinWrites_cons, pinWrites_nil, h2.2.trans h1.2, h3.2.trans (h2.2.trans h1.2)]

/-- Claim C3, as amended. On a device prepared as SD-MUX with pin byte `p`:
when no pin write fails, `doPower` returns `EXIT_SUCCESS` and issues both
pulses whatever the flags are, the off pulse (write `(p | POWER_SW_ON) &
~POWER_SW_OFF`, 100 ms, write that value `| POWER_SW_OFF`), the delay between
the pulses, then the on pulse (write the current value with `POWER_SW_OFF` set
and `POWER_SW_ON` cleared, 100 ms, write it with `POWER_SW_ON` set again); and
whether or not writes fail, every byte it writes has the bits of `p` outside
the two power bits. -/
theorem doPower_pulses (env : Env) (options : Options) (off on_ : Bool) (p : Nat)
    (tr0 : List Ev)
    (hprep : prepareDevice env options true env.uninitPins = (some (p, CCDT_SDMUX), tr0)) :
    let w1 := clearBits (setBits p POWER_SW_ON) POWER_SW_OFF
    let w2 := setBits w1 POWER_SW_OFF
    let w3 := clearBits (setBits w2 POWER_SW_OFF) POWER_SW_ON
    let w4 := setBits w3 POWER_SW_ON
    ((∀ tr b, 0 ≤ env.writeData tr b) →
      doPower env off on_ options =
        (EXIT_SUCCESS, tr0 ++ [Ev.writeData w1, Ev.usleep 100000, Ev.writeData w2,
          Ev.usleep (periodMicros options),
          Ev.writeData w3, Ev.usleep 100000, Ev.writeData w4, Ev.usbClose, Ev.ftdiFree])) ∧
    (∀ b ∈ pinWrites (doPower env off on_ options).2, otherBits b = otherBits p) := by
  intro w1 w2 w3 w4
  have hf : hasFeature CCDT_SDMUX CCF_POWERSWITCH = true := by decide
  have hp256 := prepareDevice_sdmux_lt env options _ p tr0 hprep
  have hpw := prepareDevice_pinWrites env options true env.uninitPins
  rw [hprep] at hpw
  simp only at hpw
  constructor
  · intro hw
    unfold doPower
    rw [hprep]
    simp [hf, powerOff_eq, powerOn_eq, not_lt.mpr (hw _ _), closeAndFree, w1, w2, w3, w4]
  · unfold doPower
    rw [hprep]
    simp only [hf, not_true_eq_false, if_false]
    obtain ⟨hq1, -, l1, hl1, hfr1⟩ := powerOff_frame env tr0 p hp256
    rcases hpo : powerOff env tr0 p with ⟨r1, q1, t1⟩
    rw [hpo] at hq1 hl1
    simp only at hq1 hl1
    subst hl1
    have hfo : otherBits q1 = otherBits p := by
      have := (powerOff_frame env tr0 p hp256).2.1
      rw [hpo] at this
      exact this
    obtain ⟨-, -, l2, hl2, hfr2⟩ :=
      powerOn_frame env (tr0 ++ l1 ++ [Ev.usleep (periodMicros options)]) q1 hq1
    rcases hpn : powerOn env (tr0 ++ l1 ++ [Ev.usleep (periodMicros options)]) q1 with
      ⟨r2, q2, t2⟩
    rw [hpn] at hl2
    simp only at hl2
    subst hl2
    have key1 : ∀ b ∈ pinWrites (closeAndFree (tr0 ++ l1)), otherBits b = otherBits p := by
      intro b hb
      simp only [closeAndFree, pinWrites_append, hpw, pinWrites_cons, pinWrites_nil,
        List.nil_append, List.append_nil] at hb
      exact hfr1 b hb
    have key2 : ∀ b ∈ pinWrites (closeAndFree
        (tr0 ++ l1 ++ [Ev.usleep (periodMicros options)] ++ l2)), otherBits b = otherBits p := by
      intro b hb
      simp only [closeAndFree, pinWrites_append, hpw, pinWrites_cons, pinWrites_nil,
        List.nil_append, List.append_nil, List.mem_append] at hb
      rcases hb with hb | hb
      · exact hfr1 b hb
      · exact (hfr2 b hb).trans hfo
    simp only [hpn]
    split_ifs <;> first | exact key1 | exact key2

/-- Claim C3, as amended, on a concrete SD-MUX with pin byte 0x14 on which every
call succeeds: the four writes are 0x10, 0x14, 0x04, 0x14. -/
theorem doPower_pulses_witness :
    prepareDevice (demoEnv "sd-mux" 0x14) demoOptions true (demoEnv "sd-mux" 0x14).uninitPins =
      (some (0x14, CCDT_SDMUX),
        openedTrace demoOptions ++ [Ev.setBitmode 0xFF BITMODE_BITBANG, Ev.readData]) ∧
    (∀ tr b, 0 ≤ (demoEnv "sd-mux" 0x14).writeData tr b) ∧
    doPower (demoEnv "sd-mux" 0x14) true false demoOptions =
      (EXIT_SUCCESS, openedTrace demoOptions ++ [Ev.setBitmode 0xFF BITMODE_BITBANG, Ev.readData] ++
        [Ev.writeData 0x10, Ev.usleep 100000, Ev.writeData 0x14, Ev.usleep 1000000,
          Ev.writeData 0x04, Ev.usleep 100000, Ev.writeData 0x14, Ev.usbClose, Ev.ftdiFree]) ∧
    (∀ b ∈ pinWrites (doPower (demoEnv "sd-mux" 0x14) true false demoOptions).2,
      otherBits b = otherBits 0x14) :=
  ⟨by decide, fun _ _ => (by decide : (0 : Int) ≤ 1),
    (doPower_pulses (demoEnv "sd-mux" 0x14) demoOptions true false 0x14
      (openedTrace demoOptions ++ [Ev.setBitmode 0xFF BITMODE_BITBANG, Ev.readData])
      (by decide)).1 (fun _ _ => (by decide : (0 : Int) ≤ 1)),
    (doPower_pulses (demoEnv "sd-mux" 0x14) demoOptions true false 0x14
      (openedTrace demoOptions ++ [Ev.setBitmode 0xFF BITMODE_BITBANG, Ev.readData])
      (by decide)).2⟩

/-- Claim C3 as stated fails when writes fail: on an SD-MUX with pin byte 0x14
whose writes all fail, `doPower` with `off` requested stops after the first
write of the off pulse and issues no on pulse, and with `off` not requested it
goes on to the first write of the on pulse; so the writes are not the two full
pulses, and they depend on the flags. -/
theorem doPower_pulses_counterexample :
    prepareDevice (writeFailEnv "sd-mux" 0x14) demoOptions true
        (writeFailEnv "sd-mux" 0x14).uninitPins =
      (some (0x14, CCDT_SDMUX),
        openedTrace demoOptions ++ [Ev.setBitmode 0xFF BITMODE_BITBANG, Ev.readData]) ∧
    pinWrites (doPower (writeFailEnv "sd-mux" 0x14) true true demoOptions).2 = [0x10] ∧
    pinWrites (doPower (writeFailEnv "sd-mux" 0x14) false true demoOptions).2 = [0x10, 0x04] ∧
    pinWrites (doPower (writeFailEnv "sd-mux" 0x14) true true demoOptions).2 ≠
      [0x10, 0x14, 0x04, 0x14] := by
  decide

/-! ### Exit status of `doPower` -/

/-- Claim C4, the code at the failing input. On an SD-MUX with pin byte 0x14 whose
off pulse succeeds and whose on pulse fails at its first write,
`doPower(true, false)` returns `EXIT_FAILURE` although the on side was not
requested, and so does `doInit`; on the off side the code does what the claim
says: with the off pulse failing and not requested, `doPower(false, true)`
returns `EXIT_SUCCESS`. -/
theorem doPower_unrequested_on_pulse_fails :
    (powerOff (onPulseFailEnv "sd-mux" 0x14)
      (openedTrace demoOptions ++ [Ev.setBitmode 0xFF BITMODE_BITBANG, Ev.readData]) 0x14).1 =
      EXIT_SUCCESS ∧
    doPower (onPulseFailEnv "sd-mux" 0x14) true false demoOptions =
      (EXIT_FAILURE,
        openedTrace demoOptions ++ [Ev.setBitmode 0xFF BITMODE_BITBANG, Ev.readData,
          Ev.writeData 0x10, Ev.usleep 100000, Ev.writeData 0x14, Ev.usleep 1000000,
          Ev.writeData 0x04, Ev.stderr "write failed for 0x%x, error %d (%s)\n",
          Ev.usbClose, Ev.ftdiFree]) ∧
    (doInit (onPulseFailEnv "sd-mux" 0x14) (demoEnv "sd-mux" 0x14) demoOptions).1 =
      EXIT_FAILURE ∧
    (powerOff (offPulseFailEnv "sd-mux" 0x14)
      (openedTrace demoOptions ++ [Ev.setBitmode 0xFF BITMODE_BITBANG, Ev.readData]) 0x14).1 =
      EXIT_FAILURE ∧
    (doPower (offPulseFailEnv "sd-mux" 0x14) false true demoOptions).1 = EXIT_SUCCESS := by
  decide

/-! ### Raw pins -/

/-- Claim C9, the code at the failing inputs. On an SD-MUX, `setPins(0x0F)` with a
device serial number given and `--invert` not given writes the complement
0xF0, and with `--invert` given and the device named by its id it writes 0x0F
itself: the inversion follows the device-serial option, not the invert option. -/
theorem setPins_inverts_by_serial :
    (serialOptions "A").bitsInvert = 0 ∧
    pinWrites (setPins (demoEnv "sd-mux" 0) 0x0F (serialOptions "A")).2 = [0xF0] ∧
    invertOptions.bitsInvert = 1 ∧ invertOptions.deviceSerial = none ∧
    pinWrites (setPins (demoEnv "sd-mux" 0) 0x0F invertOptions).2 = [0x0F] := by
  decide

/-! ### Dynamic jumpers -/

/-- Claim C10, the code at the failing input. On an SD-MUX, `setDyPer` with the
argument "maybe", which is neither "on" nor "off" in any letter case, prints
the diagnostic of an invalid argument and returns `EXIT_SUCCESS`. -/
theorem setDyPer_invalid_argument_exit :
    strcasecmp STRON "maybe" ≠ 0 ∧ strcasecmp STROFF "maybe" ≠ 0 ∧
    setDyPer (demoEnv "sd-mux" 0x14) CCC_DyPer1 (dyPerOptions "maybe") =
      some (EXIT_SUCCESS,
        openedTrace (dyPerOptions "maybe") ++
          [Ev.setBitmode 0xFF BITMODE_BITBANG, Ev.readData,
            Ev.stderr "Invalid DyPer argument! Use \"on\" or \"off\".\n",
            Ev.usbClose, Ev.ftdiFree]) := by
  decide

/-! ### The report of a device that is not initialized -/

/-- With a pin byte to interpret, the device kind is one of the three known. -/
theorem statusReadback_kind (env : Env) (options : Options) (b : Nat)
    (h : statusReadback env options = some b) : kindOf env ≠ CCDT_MAX := by
  unfold statusReadback at h
  rcases hp : prepareDevice env options true env.uninitPins with ⟨_ | ⟨p, k⟩, tr0⟩
  · rw [hp] at h
    cases h
  · obtain ⟨hk, hmax, -⟩ := prepareDevice_some env options true _ p k tr0 hp
    rw [← hk]
    exact hmax

/-- Claim C5. The line "Device not initialized!" is in what `showStatus` does
exactly when it got a pin byte and either the kind is USB-MUX and the byte is
0xFF, or the kind is SD-MUX and the byte does not have both `POWER_SW_ON` and
`POWER_SW_OFF` set; it is never there for an SDWire; and whenever `showStatus`
got a pin byte, that is the device opened and the pin read succeeded, it
returns 0, the cases of a device not initialized included. -/
theorem showStatus_not_initialized (env : Env) (options : Options) :
    (NOT_INITIALIZED ∈ (showStatus env options).2 ↔
      ∃ b, statusReadback env options = some b ∧
        ((kindOf env = CCDT_USBMUX ∧ b = 0xFF) ∨
          (kindOf env = CCDT_SDMUX ∧
            ¬ (testBits b POWER_SW_ON = true ∧ testBits b POWER_SW_OFF = true)))) ∧
    (kindOf env = CCDT_SDWIRE → NOT_INITIALIZED ∉ (showStatus env options).2) ∧
    (∀ b, statusReadback env options = some b → (showStatus env options).1 = 0) := by
  have key : NOT_INITIALIZED ∈ (showStatus env options).2 ↔
      ∃ b, statusReadback env options = some b ∧
        ((kindOf env = CCDT_USBMUX ∧ b = 0xFF) ∨
          (kindOf env = CCDT_SDMUX ∧
            ¬ (testBits b POWER_SW_ON = true ∧ testBits b POWER_SW_OFF = true))) := by
    unfold NOT_INITIALIZED
    rw [mem_stdoutLines]
    cases hr : statusReadback env options with
    | none =>
      rw [showStatus_of_no_readback env options hr]
      simp
    | some b =>
      have hmax := statusReadback_kind env options b hr
      rw [(showStatus_of_readback env options b hr).2]
      simp only [Option.some.injEq, exists_eq_left']
      cases hk : kindOf env
      · simp only [reduceCtorEq, if_false, false_and, false_or, true_and]
        cases testBits b USB_SEL <;> cases testBits b SOCKET_SEL <;>
          cases testBits b POWER_SW_ON <;> cases testBits b POWER_SW_OFF <;> decide
      · simp only [reduceCtorEq, if_true, false_and, or_self, iff_false]
        cases testBits b SOCKET_SEL <;> decide
      · simp only [reduceCtorEq, if_false, if_true, true_and, false_and, or_false]
        split_ifs with h1
        · simp [h1]
        · simp only [h1, iff_false]
          cases testBits b UM_SOCKET_SEL <;> decide
      · exact absurd hk hmax
  refine ⟨key, ?_, ?_⟩
  · intro hk
    rw [key]
    rintro ⟨b, -, ⟨h1, -⟩ | ⟨h1, -⟩⟩ <;> rw [hk] at h1 <;> cases h1
  · intro b hb
    exact (showStatus_of_readback env options b hb).1

/-- Claim C5 on an SD-MUX that was never initialized: the readback 0x00 has
neither power bit set, `showStatus` reports that the device is not initialized
and returns 0. -/
theorem showStatus_not_initialized_witness :
    statusReadback (demoEnv "sd-mux" 0x00) demoOptions = some 0x00 ∧
    NOT_INITIALIZED ∈ (showStatus (demoEnv "sd-mux" 0x00) demoOptions).2 ∧
    (showStatus (demoEnv "sd-mux" 0x00) demoOptions).1 = 0 :=
  ⟨by decide,
    (showStatus_not_initialized (demoEnv "sd-mux" 0x00) demoOptions).1.mpr
      ⟨0x00, by decide, Or.inr ⟨by decide, by decide⟩⟩,
    (showStatus_not_initialized (demoEnv "sd-mux" 0x00) demoOptions).2.2 0x00 (by decide)⟩

/-! ### Device identity -/

/-- Claim C6. For every C string `s`, `getDeviceTypeFromString s` is `CCDT_SDMUX`
exactly for "sd-mux", `CCDT_SDWIRE` exactly for "sd-wire", `CCDT_USBMUX`
exactly for "usb-mux" and `CCDT_MAX` exactly for every other string, letter
case included; and `openDevice`, asked for the kind, reports an unconfigured
device exactly when the transport opens and the product string gives
`CCDT_MAX`, and once the transport opens it fails exactly in that case. -/
theorem getDeviceTypeFromString_exact (s : String) (hs : NulFree s) (env : Env)
    (options : Options) :
    (getDeviceTypeFromString s = CCDT_SDMUX ↔ s = "sd-mux") ∧
    (getDeviceTypeFromString s = CCDT_SDWIRE ↔ s = "sd-wire") ∧
    (getDeviceTypeFromString s = CCDT_USBMUX ↔ s = "usb-mux") ∧
    (getDeviceTypeFromString s = CCDT_MAX ↔ s ≠ "sd-mux" ∧ s ≠ "sd-wire" ∧ s ≠ "usb-mux") ∧
    (UNCONFIGURED ∈ (openDevice env options true []).2 ↔
      TransportOpens env options ∧ getDeviceTypeFromString env.productStr = CCDT_MAX) ∧
    (TransportOpens env options →
      ((openDevice env options true []).1 = none ↔
        getDeviceTypeFromString env.productStr = CCDT_MAX)) := by
  have h1 := strcmp_eq_zero_iff CCDT_SDMUX_STR s nulFree_sdmux hs
  have h2 := strcmp_eq_zero_iff CCDT_SDWIRE_STR s nulFree_sdwire hs
  have h3 := strcmp_eq_zero_iff CCDT_USBMUX_STR s nulFree_usbmux hs
  have e1 : (s = "sd-mux") = (CCDT_SDMUX_STR = s) := propext eq_comm
  have e2 : (s = "sd-wire") = (CCDT_SDWIRE_STR = s) := propext eq_comm
  have e3 : (s = "usb-mux") = (CCDT_USBMUX_STR = s) := propext eq_comm
  have d12 : CCDT_SDMUX_STR ≠ CCDT_SDWIRE_STR := by decide
  have d13 : CCDT_SDMUX_STR ≠ CCDT_USBMUX_STR := by decide
  have d23 : CCDT_SDWIRE_STR ≠ CCDT_USBMUX_STR := by decide
  refine ⟨?_, ?_, ?_, ?_, ?_, ?_⟩
  · unfold getDeviceTypeFromString
    rw [e1, ← h1]
    split_ifs <;> simp_all
  · unfold getDeviceTypeFromString
    rw [e2, ← h2]
    by_cases c1 : strcmp CCDT_SDMUX_STR s = 0
    · have := h1.mp c1
      have c2 : ¬ strcmp CCDT_SDWIRE_STR s = 0 := fun c => d12 ((h1.mp c1).trans (h2.mp c).symm)
      simp [c1, c2]
    · split_ifs <;> simp_all
  · unfold getDeviceTypeFromString
    rw [e3, ← h3]
    by_cases c1 : strcmp CCDT_SDMUX_STR s = 0
    · have c3 : ¬ strcmp CCDT_USBMUX_STR s = 0 := fun c => d13 ((h1.mp c1).trans (h3.mp c).symm)
      simp [c1, c3]
    · by_cases c2 : strcmp CCDT_SDWIRE_STR s = 0
      · have c3 : ¬ strcmp CCDT_USBMUX_STR s = 0 :=
          fun c => d23 ((h2.mp c2).trans (h3.mp c).symm)
        simp [c1, c2, c3]
      · split_ifs <;> simp_all
  · unfold getDeviceTypeFromString
    simp only [ne_eq]
    rw [e1, e2, e3, ← h1, ← h2, ← h3]
    split_ifs <;> simp_all
  · by_cases ho : TransportOpens env options
    · rw [openDevice_of_opens env options ho]
      obtain ⟨v, p, sr, i, hu⟩ := usbOpenEv_eq options
      unfold kindOf
      split_ifs with hk <;> simp [ho, hk, openedTrace, UNCONFIGURED, hu]
    · simp [ho, (openDevice_of_not_opens env options true ho).2]
  · intro ho
    rw [openDevice_of_opens env options ho]
    unfold kindOf
    split_ifs with hk <;> simp [hk]

/-- Claim C6 at the string "SD-MUX", which differs from "sd-mux" in letter case
only, and at a device whose product string it is: no kind matches, and
`openDevice` fails with the report of an unconfigured device. -/
theorem getDeviceTypeFromString_exact_witness :
    NulFree "SD-MUX" ∧ getDeviceTypeFromString "SD-MUX" = CCDT_MAX ∧
    UNCONFIGURED ∈ (openDevice (demoEnv "SD-MUX" 0) demoOptions true []).2 ∧
    (openDevice (demoEnv "SD-MUX" 0) demoOptions true []).1 = none :=
  have hn : NulFree "SD-MUX" := by
    intro c hc
    simp [String.toList] at hc
    rcases hc with h | h | h | h | h | h <;> subst h <;> decide
  have ho : TransportOpens (demoEnv "SD-MUX" 0) demoOptions := by
    unfold TransportOpens
    decide
  ⟨hn,
    (getDeviceTypeFromString_exact "SD-MUX" hn (demoEnv "SD-MUX" 0) demoOptions).2.2.2.1.mpr
      (by decide),
    (getDeviceTypeFromString_exact "SD-MUX" hn (demoEnv "SD-MUX" 0) demoOptions).2.2.2.2.1.mpr
      ⟨ho, by decide⟩,
    ((getDeviceTypeFromString_exact "SD-MUX" hn (demoEnv "SD-MUX" 0) demoOptions).2.2.2.2.2
      ho).mpr (by decide)⟩

/-! ### Operations the device kind does not support -/

/-- Claim C7. On a device whose kind lacks the power switch, SDWire and USB-MUX in
the feature matrix, `doPower` returns `EXIT_FAILURE` for all flags and its
trace has no pin write, no mode-set and no pin read; on a device whose kind
lacks the dynamic jumpers, SDWire and USB-MUX again, `setDyPer` returns
`EXIT_FAILURE` for every argument and its trace has none of them either. -/
theorem unsupported_feature_no_pin_access (env : Env) (options : Options) (off on_ : Bool)
    (cmd : CCCommand) :
    (hasFeature (kindOf env) CCF_POWERSWITCH = false →
      (doPower env off on_ options).1 = EXIT_FAILURE ∧
      ∀ e ∈ (doPower env off on_ options).2,
        e.isPinWrite = false ∧ e.isModeSet = false ∧ e.isPinRead = false) ∧
    (hasFeature (kindOf env) CCF_DYPERS = false →
      ∃ tr, setDyPer env cmd options = some (EXIT_FAILURE, tr) ∧
        ∀ e ∈ tr, e.isPinWrite = false ∧ e.isModeSet = false ∧ e.isPinRead = false) ∧
    hasFeature CCDT_SDWIRE CCF_POWERSWITCH = false ∧
    hasFeature CCDT_USBMUX CCF_POWERSWITCH = false ∧
    hasFeature CCDT_SDWIRE CCF_DYPERS = false ∧
    hasFeature CCDT_USBMUX CCF_DYPERS = false := by
  have hot := (openDevice_trace env options true).2.2
  refine ⟨?_, ?_, by decide, by decide, by decide, by decide⟩
  · intro hf
    have hk : kindOf env ≠ CCDT_SDMUX := by
      intro h
      rw [h] at hf
      exact absurd hf (by decide)
    unfold doPower
    rcases prepareDevice_not_sdmux env options true env.uninitPins hk with hp | ⟨hp, -⟩
    · rw [hp]
      exact ⟨rfl, hot⟩
    · rw [hp]
      simp only [hf, Bool.false_eq_true, not_false_eq_true, if_true, true_and]
      intro e he
      simp only [closeAndFree, List.append_assoc, List.mem_append, List.mem_cons,
        List.mem_singleton, List.not_mem_nil, or_false] at he
      rcases he with he | he | he | he
      · exact hot e he
      all_goals subst he; exact ⟨rfl, rfl, rfl⟩
  · intro hf
    have hk : kindOf env ≠ CCDT_SDMUX := by
      intro h
      rw [h] at hf
      exact absurd hf (by decide)
    unfold setDyPer
    rcases prepareDevice_not_sdmux env options true env.uninitPins hk with hp | ⟨hp, -⟩
    · rw [hp]
      exact ⟨_, rfl, hot⟩
    · rw [hp]
      simp only [hf, Bool.false_eq_true, not_false_eq_true, if_true]
      refine ⟨_, rfl, ?_⟩
      intro e he
      simp only [List.mem_append, List.mem_singleton] at he
      rcases he with he | he
      · exact hot e he
      · subst he
        exact ⟨rfl, rfl, rfl⟩

/-- Claim C7 on a concrete USB-MUX on which every call succeeds: a power cycle and
a switching of the first dynamic jumper. -/
theorem unsupported_feature_no_pin_access_witness :
    hasFeature (kindOf (demoEnv "usb-mux" 0)) CCF_POWERSWITCH = false ∧
    hasFeature (kindOf (demoEnv "usb-mux" 0)) CCF_DYPERS = false ∧
    (doPower (demoEnv "usb-mux" 0) true true (dyPerOptions "on")).1 = EXIT_FAILURE ∧
    (∀ e ∈ (doPower (demoEnv "usb-mux" 0) true true (dyPerOptions "on")).2,
      e.isPinWrite = false ∧ e.isModeSet = false ∧ e.isPinRead = false) ∧
    (∃ tr, setDyPer (demoEnv "usb-mux" 0) CCC_DyPer1 (dyPerOptions "on") =
        some (EXIT_FAILURE, tr) ∧
      ∀ e ∈ tr, e.isPinWrite = false ∧ e.isModeSet = false ∧ e.isPinRead = false) :=
  ⟨by decide, by decide,
    ((unsupported_feature_no_pin_access (demoEnv "usb-mux" 0) (dyPerOptions "on") true true
      CCC_DyPer1).1 (by decide)).1,
    ((unsupported_feature_no_pin_access (demoEnv "usb-mux" 0) (dyPerOptions "on") true true
      CCC_DyPer1).1 (by decide)).2,
    (unsupported_feature_no_pin_access (demoEnv "usb-mux" 0) (dyPerOptions "on") true true
      CCC_DyPer1).2.1 (by decide)⟩

/-- Claim C8. On an SDWire `setPins` returns `EXIT_FAILURE` whatever the value and
the options are, and its trace has no pin write. -/
theorem setPins_sdwire_fails (env : Env) (pins : Nat) (options : Options)
    (hk : kindOf env = CCDT_SDWIRE) :
    (setPins env pins options).1 = EXIT_FAILURE ∧
    ∀ e ∈ (setPins env pins options).2, e.isPinWrite = false := by
  have hot := (openDevice_trace env options true).2.2
  have hk1 : kindOf env ≠ CCDT_SDMUX := by
    rw [hk]
    decide
  unfold setPins
  rcases prepareDevice_not_sdmux env options false env.uninitPins hk1 with hp | ⟨hp, -⟩
  · rw [hp]
    exact ⟨rfl, fun e he => (hot e he).1⟩
  · rw [hp, hk]
    exact ⟨rfl, fun e he => (hot e he).1⟩

/-- Claim C8 on a concrete SDWire on which every call succeeds, for the value
0x0F and a device serial number given. -/
theorem setPins_sdwire_fails_witness :
    kindOf (demoEnv "sd-wire" 0) = CCDT_SDWIRE ∧
    (setPins (demoEnv "sd-wire" 0) 0x0F (serialOptions "A")).1 = EXIT_FAILURE ∧
    (∀ e ∈ (setPins (demoEnv "sd-wire" 0) 0x0F (serialOptions "A")).2, e.isPinWrite = false) :=
  ⟨by decide,
    (setPins_sdwire_fails (demoEnv "sd-wire" 0) 0x0F (serialOptions "A") (by decide)).1,
    (setPins_sdwire_fails (demoEnv "sd-wire" 0) 0x0F (serialOptions "A") (by decide)).2⟩

/-! ### Comparison without regard to case -/

theorem toLower_toNat_ne_zero {c : Char} (h : c ≠ Char.ofNat 0) :
    c.toLower ≠ Char.ofNat 0 := by
  intro h0
  apply h
  unfold Char.toLower at h0
  simp only at h0
  split_ifs at h0 with hc
  · exfalso
    obtain ⟨h1, h2⟩ := hc
    have h3 : (Char.ofNat (c.toNat + 32)).toNat = 0 := by rw [h0]; rfl
    generalize c.toNat = n at h1 h2 h3
    interval_cases n <;> revert h3 <;> decide
  · exact h0

/-- The function `strcasecmp` is `strcmp` on the lower-case forms. -/
theorem strcasecmpAux_eq : ∀ (a b : List Char),
    strcasecmpAux a b = strcmpAux (a.map Char.toLower) (b.map Char.toLower)
  | [], [] => rfl
  | [], _ :: _ => rfl
  | _ :: _, [] => rfl
  | x :: xs, y :: ys => by
    simp only [strcasecmpAux, List.map_cons, strcmpAux, strcasecmpAux_eq xs ys]

/-- On C strings `strcasecmp` answers zero exactly for strings that are equal but
for the case of their letters. -/
theorem strcasecmp_eq_zero_iff (a b : String) (ha : NulFree a) (hb : NulFree b) :
    strcasecmp a b = 0 ↔ EqIgnoreCase a b := by
  unfold strcasecmp EqIgnoreCase
  rw [strcasecmpAux_eq]
  apply strcmpAux_eq_zero_iff
  · intro c hc
    obtain ⟨d, hd, rfl⟩ := List.mem_map.mp hc
    exact toLower_toNat_ne_zero (ha d hd)
  · intro c hc
    obtain ⟨d, hd, rfl⟩ := List.mem_map.mp hc
    exact toLower_toNat_ne_zero (hb d hd)

theorem nulFree_STRON : NulFree STRON := by
  intro c hc
  simp [String.toList] at hc
  rcases hc with h | h <;> subst h <;> decide

theorem nulFree_STROFF : NulFree STROFF := by
  intro c hc
  simp [String.toList] at hc
  rcases hc with h | h <;> subst h <;> decide

/-- To equal "ON" but for case is to equal "on" but for case. -/
theorem eqIgnoreCase_on (arg : String) : EqIgnoreCase STRON arg ↔ EqIgnoreCase arg "on" := by
  unfold EqIgnoreCase
  have h : STRON.toList.map Char.toLower = "on".toList.map Char.toLower := by decide
  rw [h]
  exact eq_comm

/-- To equal "OFF" but for case is to equal "off" but for case. -/
theorem eqIgnoreCase_off (arg : String) : EqIgnoreCase STROFF arg ↔ EqIgnoreCase arg "off" := by
  unfold EqIgnoreCase
  have h : STROFF.toList.map Char.toLower = "off".toList.map Char.toLower := by decide
  rw [h]
  exact eq_comm

/-! ### One bit of the dynamic jumpers -/

set_option maxRecDepth 1000000 in
/-- Setting or clearing `DYPER1` or `DYPER2` in a byte gives a byte that has
bit 5 or bit 6 as asked and the other seven bits as before. -/
theorem dyper_bits_byte : ∀ p < 256, ∀ i < 8,
    ((setBits p DYPER1 < 256 ∧
        (setBits p DYPER1).testBit i = if i = 5 then true else p.testBit i) ∧
      (clearBits p DYPER1 < 256 ∧
        (clearBits p DYPER1).testBit i = if i = 5 then false else p.testBit i)) ∧
    ((setBits p DYPER2 < 256 ∧
        (setBits p DYPER2).testBit i = if i = 6 then true else p.testBit i) ∧
      (clearBits p DYPER2 < 256 ∧
        (clearBits p DYPER2).testBit i = if i = 6 then false else p.testBit i)) := by
  decide

/-- A byte has no bit from bit 8 on. -/
theorem testBit_byte_high (x i : Nat) (hx : x < 256) (hi : 8 ≤ i) : x.testBit i = false := by
  apply Nat.testBit_lt_two_pow
  calc x < 2 ^ 8 := hx
    _ ≤ 2 ^ i := Nat.pow_le_pow_right (by decide) hi

/-- The byte `setDyPer` writes: bit `k` (5 for `DYPER1`, 6 for `DYPER2`) is set
for on and cleared for off, and every other bit is the bit of `p`. -/
theorem dyper_bits (p : Nat) (hp : p < 256) (first : Bool) :
    let dyper := if first then DYPER1 else DYPER2
    let k := if first then 5 else 6
    (setBits p dyper < 256 ∧ (setBits p dyper).testBit k = true ∧
      ∀ i, i ≠ k → (setBits p dyper).testBit i = p.testBit i) ∧
    (clearBits p dyper < 256 ∧ (clearBits p dyper).testBit k = false ∧
      ∀ i, i ≠ k → (clearBits p dyper).testBit i = p.testBit i) := by
  cases first
  · simp only [Bool.false_eq_true, if_false]
    have h6 := (dyper_bits_byte p hp 6 (by decide)).2
    refine ⟨⟨h6.1.1, by simpa using h6.1.2, ?_⟩, ⟨h6.2.1, by simpa using h6.2.2, ?_⟩⟩
    · intro i hi
      by_cases h8 : i < 8
      · have h := (dyper_bits_byte p hp i h8).2.1.2
        rw [if_neg hi] at h
        exact h
      · rw [testBit_byte_high _ i h6.1.1 (not_lt.mp h8),
          testBit_byte_high _ i hp (not_lt.mp h8)]
    · intro i hi
      by_cases h8 : i < 8
      · have h := (dyper_bits_byte p hp i h8).2.2.2
        rw [if_neg hi] at h
        exact h
      · rw [testBit_byte_high _ i h6.2.1 (not_lt.mp h8),
          testBit_byte_high _ i hp (not_lt.mp h8)]
  · simp only [if_true]
    have h5 := (dyper_bits_byte p hp 5 (by decide)).1
    refine ⟨⟨h5.1.1, by simpa using h5.1.2, ?_⟩, ⟨h5.2.1, by simpa using h5.2.2, ?_⟩⟩
    · intro i hi
      by_cases h8 : i < 8
      · have h := (dyper_bits_byte p hp i h8).1.1.2
        rw [if_neg hi] at h
        exact h
      · rw [testBit_byte_high _ i h5.1.1 (not_lt.mp h8),
          testBit_byte_high _ i hp (not_lt.mp h8)]
    · intro i hi
      by_cases h8 : i < 8
      · have h := (dyper_bits_byte p hp i h8).1.2.2
        rw [if_neg hi] at h
        exact h
      · rw [testBit_byte_high _ i h5.2.1 (not_lt.mp h8),
          testBit_byte_high _ i hp (not_lt.mp h8)]

/-- Claim C11. On a device prepared as SD-MUX with pin byte `p`, for a C string as
the on/off argument: when the argument equals neither "on" nor "off" but for
case, `setDyPer` writes no pin byte; when it equals "on" or "off" in any
letter case, `setDyPer` writes exactly one byte, which has the designated bit
(bit 5, `DYPER1`, for `dyper1`, bit 6, `DYPER2`, otherwise) set for on and
cleared for off, and every other bit as in `p`. -/
theorem setDyPer_one_bit (env : Env) (options : Options) (cmd : CCCommand) (p : Nat)
    (tr0 : List Ev) (arg : String)
    (hprep : prepareDevice env options true env.uninitPins = (some (p, CCDT_SDMUX), tr0))
    (harg : options.dyPer = some arg) (hnul : NulFree arg) :
    let k := if cmd = CCC_DyPer1 then 5 else 6
    (¬ EqIgnoreCase arg "on" → ¬ EqIgnoreCase arg "off" →
      ∃ r tr, setDyPer env cmd options = some (r, tr) ∧ pinWrites tr = []) ∧
    (EqIgnoreCase arg "on" →
      ∃ r tr w, setDyPer env cmd options = some (r, tr) ∧ pinWrites tr = [w] ∧ w < 256 ∧
        w.testBit k = true ∧ ∀ i, i ≠ k → w.testBit i = p.testBit i) ∧
    (EqIgnoreCase arg "off" →
      ∃ r tr w, setDyPer env cmd options = some (r, tr) ∧ pinWrites tr = [w] ∧ w < 256 ∧
        w.testBit k = false ∧ ∀ i, i ≠ k → w.testBit i = p.testBit i) ∧
    DYPER1 = 2 ^ 5 ∧ DYPER2 = 2 ^ 6 := by
  intro k
  have hf : hasFeature CCDT_SDMUX CCF_DYPERS = true := by decide
  have hp256 := prepareDevice_sdmux_lt env options _ p tr0 hprep
  have hpw := prepareDevice_pinWrites env options true env.uninitPins
  rw [hprep] at hpw
  simp only at hpw
  have hon := (strcasecmp_eq_zero_iff STRON arg nulFree_STRON hnul).trans (eqIgnoreCase_on arg)
  have hoff :=
    (strcasecmp_eq_zero_iff STROFF arg nulFree_STROFF hnul).trans (eqIgnoreCase_off arg)
  have hexcl : EqIgnoreCase arg "off" → ¬ EqIgnoreCase arg "on" := by
    intro h1 h2
    unfold EqIgnoreCase at h1 h2
    rw [h1] at h2
    revert h2
    decide
  have hbits := dyper_bits p hp256 (decide (cmd = CCC_DyPer1))
  simp only [decide_eq_true_eq] at hbits
  have hwrite : ∀ w, ∃ r tr, (match writePins env tr0 w with
      | (r, tr) =>
        if r ≠ EXIT_SUCCESS then some (EXIT_FAILURE, closeAndFree tr)
        else some (EXIT_SUCCESS, closeAndFree tr)) = some (r, tr) ∧ pinWrites tr = [w] := by
    intro w
    rw [writePins_eq]
    by_cases hw : env.writeData tr0 w < 0
    · refine ⟨_, _, by simp only [hw, if_true]; rfl, ?_⟩
      simp [closeAndFree, pinWrites_append, pinWrites_cons, pinWrites_nil, hpw]
    · refine ⟨_, _, by simp only [hw, if_false]; rfl, ?_⟩
      simp [closeAndFree, pinWrites_append, pinWrites_cons, pinWrites_nil, hpw]
  refine ⟨?_, ?_, ?_, by decide, by decide⟩
  · intro h1 h2
    unfold setDyPer
    rw [hprep]
    simp only [hf, not_true_eq_false, if_false, harg, hon, hoff, h1, h2]
    refine ⟨_, _, rfl, ?_⟩
    simp [closeAndFree, pinWrites_append, pinWrites_cons, pinWrites_nil, hpw]
  · intro h1
    unfold setDyPer
    rw [hprep]
    simp only [hf, not_true_eq_false, if_false, harg, hon, h1, if_true]
    obtain ⟨r, tr, h2, h3⟩ := hwrite (setBits p (if cmd = CCC_DyPer1 then DYPER1 else DYPER2))
    exact ⟨r, tr, _, h2, h3, hbits.1⟩
  · intro h1
    unfold setDyPer
    rw [hprep]
    simp only [hf, not_true_eq_false, if_false, harg, hon, hoff, h1, hexcl h1, if_true,
      Bool.false_eq_true]
    obtain ⟨r, tr, h2, h3⟩ := hwrite (clearBits p (if cmd = CCC_DyPer1 then DYPER1 else DYPER2))
    exact ⟨r, tr, _, h2, h3, hbits.2⟩

/-- Claim C11 on a concrete SD-MUX with pin byte 0x14 and the argument "oN" of
`dyper1`: the one byte written is 0x34, the byte 0x14 with bit 5 set. -/
theorem setDyPer_one_bit_witness :
    prepareDevice (demoEnv "sd-mux" 0x14) (dyPerOptions "oN") true
        (demoEnv "sd-mux" 0x14).uninitPins =
      (some (0x14, CCDT_SDMUX),
        openedTrace (dyPerOptions "oN") ++ [Ev.setBitmode 0xFF BITMODE_BITBANG, Ev.readData]) ∧
    NulFree "oN" ∧ EqIgnoreCase "oN" "on" ∧
    pinWrites ((setDyPer (demoEnv "sd-mux" 0x14) CCC_DyPer1 (dyPerOptions "oN")).getD
      (0, [])).2 = [0x34] ∧
    (∃ r tr w, setDyPer (demoEnv "sd-mux" 0x14) CCC_DyPer1 (dyPerOptions "oN") = some (r, tr) ∧
      pinWrites tr = [w] ∧ w < 256 ∧ w.testBit 5 = true ∧
      ∀ i, i ≠ 5 → w.testBit i = (0x14).testBit i) :=
  have hn : NulFree "oN" := by
    intro c hc
    simp [String.toList] at hc
    rcases hc with h | h <;> subst h <;> decide
  have he : EqIgnoreCase "oN" "on" := by
    unfold EqIgnoreCase
    decide
  ⟨by decide, hn, he, by decide,
    (setDyPer_one_bit (demoEnv "sd-mux" 0x14) (dyPerOptions "oN") CCC_DyPer1 0x14
      (openedTrace (dyPerOptions "oN") ++ [Ev.setBitmode 0xFF BITMODE_BITBANG, Ev.readData])
      "oN" (by decide) rfl hn).2.1 he⟩

/-! ### Failing calls in `selectTarget` -/

theorem nat_or_eq_zero {m n : Nat} (h : m ||| n = 0) : m = 0 ∧ n = 0 := by
  constructor
  · by_contra hm
    obtain ⟨i, hi⟩ := Nat.ne_zero_implies_bit_true hm
    have h1 := Nat.testBit_or m n i
    rw [h, Nat.zero_testBit, hi] at h1
    simp at h1
  · by_contra hn
    obtain ⟨i, hi⟩ := Nat.ne_zero_implies_bit_true hn
    have h1 := Nat.testBit_or m n i
    rw [h, Nat.zero_testBit, hi] at h1
    simp at h1

/-- The statement `ret |= f` leaves `ret` zero exactly when `ret` and `f` are zero. -/
theorem int_lor_eq_zero_iff (a b : Int) : Int.lor a b = 0 ↔ a = 0 ∧ b = 0 := by
  constructor
  · intro h
    cases a <;> cases b <;> simp only [Int.lor] at h
    · rename_i m n
      have h1 : m ||| n = 0 := by exact_mod_cast h
      obtain ⟨hm, hn⟩ := nat_or_eq_zero h1
      subst hm
      subst hn
      exact ⟨rfl, rfl⟩
    all_goals cases h
  · rintro ⟨rfl, rfl⟩
    rfl

/-- Claim C12, as amended. A failing call always makes `selectTarget` return a
status that is not zero, but only on the SD-MUX does it abort. When the
preparation fails, `selectTarget` returns `EXIT_FAILURE` with nothing issued
after it. On the SD-MUX the first write that fails is the last call before the
clean-up and the status is `EXIT_FAILURE`. On SDWire and USB-MUX the answers of
the mode-sets are collected with `|=`: every mode-set of the sequence is
issued whatever the answers are, one on SDWire and three on USB-MUX, and the
status is zero exactly when every answer is zero. -/
theorem selectTarget_failure (env : Env) (options : Options) (T : Target) (p : Nat)
    (tr0 : List Ev) :
    (prepareDevice env options true env.uninitPins = (none, tr0) →
      selectTarget env T options = (EXIT_FAILURE, tr0)) ∧
    (prepareDevice env options true env.uninitPins = (some (p, CCDT_SDMUX), tr0) →
      let q := if T = T_DUT then clearBits (clearBits p USB_SEL) SOCKET_SEL
        else setBits (setBits p USB_SEL) SOCKET_SEL
      let w1 := if T = T_DUT then clearBits (setBits q POWER_SW_OFF) POWER_SW_ON
        else clearBits (setBits q POWER_SW_ON) POWER_SW_OFF
      let w2 := if T = T_DUT then setBits w1 POWER_SW_ON else setBits w1 POWER_SW_OFF
      selectTarget env T options =
        if env.writeData tr0 w1 < 0 then
          (EXIT_FAILURE, tr0 ++ [Ev.writeData w1,
            Ev.stderr "write failed for 0x%x, error %d (%s)\n", Ev.usbClose, Ev.ftdiFree])
        else if env.writeData (tr0 ++ [Ev.writeData w1, Ev.usleep 100000]) w2 < 0 then
          (EXIT_FAILURE, tr0 ++ [Ev.writeData w1, Ev.usleep 100000, Ev.writeData w2,
            Ev.stderr "write failed for 0x%x, error %d (%s)\n", Ev.usbClose, Ev.ftdiFree])
        else
          (EXIT_SUCCESS, tr0 ++ [Ev.writeData w1, Ev.usleep 100000, Ev.writeData w2,
            Ev.usbClose, Ev.ftdiFree])) ∧
    (prepareDevice env options true env.uninitPins = (some (p, CCDT_SDWIRE), tr0) →
      let b := if T = T_DUT then 0xF0 else 0xF1
      (selectTarget env T options).2 =
        tr0 ++ [Ev.setBitmode b BITMODE_CBUS, Ev.usbClose, Ev.ftdiFree] ∧
      ((selectTarget env T options).1 = 0 ↔ env.setBitmode tr0 b BITMODE_CBUS = 0)) ∧
    (prepareDevice env options true env.uninitPins = (some (p, CCDT_USBMUX), tr0) →
      let b := if T = T_DUT then 0xF6 else 0xFB
      (selectTarget env T options).2 =
        tr0 ++ [Ev.setBitmode 0xF0 BITMODE_CBUS, Ev.usleep 500000,
          Ev.setBitmode 0xF2 BITMODE_CBUS, Ev.usleep 100000,
          Ev.setBitmode b BITMODE_CBUS, Ev.usbClose, Ev.ftdiFree] ∧
      ((selectTarget env T options).1 = 0 ↔
        env.setBitmode tr0 0xF0 BITMODE_CBUS = 0 ∧
        env.setBitmode (tr0 ++ [Ev.setBitmode 0xF0 BITMODE_CBUS, Ev.usleep 500000])
          0xF2 BITMODE_CBUS = 0 ∧
        env.setBitmode (tr0 ++ [Ev.setBitmode 0xF0 BITMODE_CBUS, Ev.usleep 500000,
          Ev.setBitmode 0xF2 BITMODE_CBUS, Ev.usleep 100000]) b BITMODE_CBUS = 0)) := by
  have e0 : clearBits 0xF0 UM_DEVICE_PWR = 0xF0 := by decide
  have e1 : setBits 0xF0 UM_DEVICE_PWR = 0xF2 := by decide
  have e2 : clearBits (clearBits (setBits 0xF2 UM_DUT_LED) UM_SOCKET_SEL) UM_GP_LED = 0xF6 := by
    decide
  have e3 : clearBits (clearBits 0xF0 UM_DUT_LED) UM_DEVICE_PWR = 0xF0 := by decide
  have e4 : setBits (setBits 0xF2 UM_SOCKET_SEL) UM_GP_LED = 0xFB := by decide
  have e5 : setBits (setBits 0x00 0xF0) 0x00 = 0xF0 := by decide
  have e6 : setBits (setBits 0x00 0xF0) 0x01 = 0xF1 := by decide
  refine ⟨?_, ?_, ?_, ?_⟩
  · intro hprep
    unfold selectTarget
    rw [hprep]
  · intro hprep
    unfold selectTarget
    rw [hprep]
    cases T
    · simp only [reduceCtorEq, if_false, if_true, powerOn_eq]
      by_cases h1 : env.writeData tr0 (clearBits (setBits
          (clearBits (clearBits p USB_SEL) SOCKET_SEL) POWER_SW_OFF) POWER_SW_ON) < 0
      · simp only [h1, if_true]
        simp [closeAndFree]
      · by_cases h2 : env.writeData
            (tr0 ++ [Ev.writeData (clearBits (setBits
              (clearBits (clearBits p USB_SEL) SOCKET_SEL) POWER_SW_OFF) POWER_SW_ON),
              Ev.usleep DELAY_100MS])
            (setBits (clearBits (setBits
              (clearBits (clearBits p USB_SEL) SOCKET_SEL) POWER_SW_OFF) POWER_SW_ON)
              POWER_SW_ON) < 0
        · simp only [h1, h2, if_true, if_false]
          simp [closeAndFree]
        · simp only [h1, h2, if_true, if_false]
          simp [closeAndFree]
    · simp only [reduceCtorEq, if_false, if_true, powerOff_eq]
      by_cases h1 : env.writeData tr0 (clearBits (setBits
          (setBits (setBits p USB_SEL) SOCKET_SEL) POWER_SW_ON) POWER_SW_OFF) < 0
      · simp only [h1, if_true]
        simp [closeAndFree]
      · by_cases h2 : env.writeData
            (tr0 ++ [Ev.writeData (clearBits (setBits
              (setBits (setBits p USB_SEL) SOCKET_SEL) POWER_SW_ON) POWER_SW_OFF),
              Ev.usleep DELAY_100MS])
            (setBits (clearBits (setBits
              (setBits (setBits p USB_SEL) SOCKET_SEL) POWER_SW_ON) POWER_SW_OFF)
              POWER_SW_OFF) < 0
        · simp only [h1, h2, if_true, if_false]
          simp [closeAndFree]
        · simp only [h1, h2, if_true, if_false]
          simp [closeAndFree]
  · intro hprep
    unfold selectTarget
    rw [hprep]
    cases T <;>
      simp only [reduceCtorEq, if_false, if_true, cbusWrite, closeAndFree, e5, e6,
        int_lor_eq_zero_iff, true_and, List.append_assoc, List.singleton_append, and_self]
  · intro hprep
    unfold selectTarget
    rw [hprep]
    cases T <;>
      simp only [reduceCtorEq, if_false, if_true, cbusWrite, closeAndFree, e0, e1, e2, e3, e4,
        int_lor_eq_zero_iff, true_and, List.append_assoc, List.singleton_append,
        List.cons_append, List.nil_append, and_assoc, and_self]

/-- Claim C12, as amended, on a concrete USB-MUX whose mode-sets all fail: the
three mode-sets of the DUT sequence are issued and the status is not zero. -/
theorem selectTarget_failure_witness :
    prepareDevice (modeSetFailEnv "usb-mux" 0) demoOptions true
        (modeSetFailEnv "usb-mux" 0).uninitPins =
      (some (0, CCDT_USBMUX), openedTrace demoOptions) ∧
    (selectTarget (modeSetFailEnv "usb-mux" 0) T_DUT demoOptions).2 =
      openedTrace demoOptions ++ [Ev.setBitmode 0xF0 BITMODE_CBUS, Ev.usleep 500000,
        Ev.setBitmode 0xF2 BITMODE_CBUS, Ev.usleep 100000,
        Ev.setBitmode 0xF6 BITMODE_CBUS, Ev.usbClose, Ev.ftdiFree] ∧
    (selectTarget (modeSetFailEnv "usb-mux" 0) T_DUT demoOptions).1 ≠ 0 :=
  ⟨by decide,
    ((selectTarget_failure (modeSetFailEnv "usb-mux" 0) demoOptions T_DUT 0
      (openedTrace demoOptions)).2.2.2 (by decide)).1,
    fun h0 => absurd
      ((((selectTarget_failure (modeSetFailEnv "usb-mux" 0) demoOptions T_DUT 0
        (openedTrace demoOptions)).2.2.2 (by decide)).2.mp h0).1) (by decide)⟩

/-- Claim C12 as stated fails on the USB-MUX: on a device whose mode-sets all
fail, the first mode-set of the DUT sequence fails and `selectTarget` still
issues the two mode-sets after it; its status is not zero. -/
theorem selectTarget_failure_counterexample :
    (modeSetFailEnv "usb-mux" 0).setBitmode (openedTrace demoOptions) 0xF0 BITMODE_CBUS < 0 ∧
    (selectTarget (modeSetFailEnv "usb-mux" 0) T_DUT demoOptions).2 =
      openedTrace demoOptions ++ [Ev.setBitmode 0xF0 BITMODE_CBUS, Ev.usleep 500000,
        Ev.setBitmode 0xF2 BITMODE_CBUS, Ev.usleep 100000,
        Ev.setBitmode 0xF6 BITMODE_CBUS, Ev.usbClose, Ev.ftdiFree] ∧
    modeSets (selectTarget (modeSetFailEnv "usb-mux" 0) T_DUT demoOptions).2 =
      [(0xF0, BITMODE_CBUS), (0xF2, BITMODE_CBUS), (0xF6, BITMODE_CBUS)] ∧
    (selectTarget (modeSetFailEnv "usb-mux" 0) T_DUT demoOptions).1 ≠ 0 := by
  refine ⟨by decide, by decide, by decide, ?_⟩
  have h : (selectTarget (modeSetFailEnv "usb-mux" 0) T_DUT demoOptions).1 =
      Int.lor (Int.lor (Int.lor 0 (-1)) (-1)) (-1) := by rfl
  rw [h]
  intro h0
  exact absurd ((int_lor_eq_zero_iff _ _).mp h0).2 (by decide)

/-! ### The transport handle -/

/-- Claim C13, the code at the failing inputs. Three returns leave the handle open,
with no `ftdi_usb_close` and no `ftdi_free` in the trace: `showInfo` when it
succeeds, `setPins` on an SDWire, and `setDyPer` on a device without dynamic
jumpers. The sibling paths do clean up, once: `showInfo` when its decoding
fails, `setPins` and `setDyPer` on an SD-MUX; and so do `doPower`,
`selectTarget` and `showStatus` on the same SDWire. -/
theorem handle_left_open :
    (showInfo (demoEnv "sd-wire" 0) demoOptions =
        (EXIT_SUCCESS, [Ev.ftdiNew, usbOpenEv demoOptions, Ev.readEeprom, Ev.eepromDecode 0,
          Ev.eepromDecode 1]) ∧
      handleOpen (showInfo (demoEnv "sd-wire" 0) demoOptions).2 = true) ∧
    (setPins (demoEnv "sd-wire" 0) 0x0F demoOptions =
        (EXIT_FAILURE, openedTrace demoOptions) ∧
      handleOpen (setPins (demoEnv "sd-wire" 0) 0x0F demoOptions).2 = true) ∧
    (setDyPer (demoEnv "sd-wire" 0) CCC_DyPer1 (dyPerOptions "on") =
        some (EXIT_FAILURE, openedTrace (dyPerOptions "on") ++
          [Ev.stderr "DyPers are not available on this device.\n"]) ∧
      handleOpen ((setDyPer (demoEnv "sd-wire" 0) CCC_DyPer1 (dyPerOptions "on")).getD
        (0, [])).2 = true) ∧
    (handleOpen (showInfo (infoFailEnv "sd-wire" 0) demoOptions).2 = false ∧
      closeCount (showInfo (infoFailEnv "sd-wire" 0) demoOptions).2 = 1 ∧
      freeCount (showInfo (infoFailEnv "sd-wire" 0) demoOptions).2 = 1) ∧
    (handleOpen (setPins (demoEnv "sd-mux" 0) 0x0F demoOptions).2 = false ∧
      closeCount (setPins (demoEnv "sd-mux" 0) 0x0F demoOptions).2 = 1 ∧
      freeCount (setPins (demoEnv "sd-mux" 0) 0x0F demoOptions).2 = 1) ∧
    (handleOpen ((setDyPer (demoEnv "sd-mux" 0) CCC_DyPer1 (dyPerOptions "on")).getD
        (0, [])).2 = false ∧
      closeCount ((setDyPer (demoEnv "sd-mux" 0) CCC_DyPer1 (dyPerOptions "on")).getD
        (0, [])).2 = 1) ∧
    (handleOpen (doPower (demoEnv "sd-wire" 0) true true demoOptions).2 = false ∧
      handleOpen (selectTarget (demoEnv "sd-wire" 0) T_DUT demoOptions).2 = false ∧
      handleOpen (showStatus (demoEnv "sd-wire" 0) demoOptions).2 = false) := by
  decide

/-! ### The feature matrix -/

/-- Claim C14. For every kind index `k` and feature index `f`, `hasFeature` reads
the table inside its bounds only and gives an answer: `false` whenever
`k ≥ 3` (`CCDT_MAX`) or `f ≥ 4` (`CCF_MAX`), and otherwise the entry of the
table, in which the SD-MUX (0) has all four features, SDWire (1) has the
feature `CCF_SDMUX` (0) only and USB-MUX (2) has `CCF_USBMUX` (2) only; on the
enumerators, `hasFeature` is that answer. -/
theorem hasFeature_table (k f : Nat) :
    (hasFeatureIdx k f).isSome = true ∧
    (k ≥ 3 ∨ f ≥ 4 → hasFeatureIdx k f = some false) ∧
    (k < 3 → f < 4 →
      hasFeatureIdx k f = some (decide (k = 0 ∨ (k = 1 ∧ f = 0) ∨ (k = 2 ∧ f = 2)))) ∧
    CCDeviceType.toNat CCDT_MAX = 3 ∧ CCFeature.toNat CCF_MAX = 4 ∧
    (∀ d ft, hasFeatureIdx (CCDeviceType.toNat d) (CCFeature.toNat ft) =
      some (hasFeature d ft)) ∧
    (∀ ft, hasFeature CCDT_SDMUX ft = decide (ft ≠ CCF_MAX)) ∧
    (∀ ft, hasFeature CCDT_SDWIRE ft = decide (ft = CCF_SDMUX)) ∧
    (∀ ft, hasFeature CCDT_USBMUX ft = decide (ft = CCF_USBMUX)) ∧
    (∀ ft, hasFeature CCDT_MAX ft = false) := by
  have hout : k ≥ 3 ∨ f ≥ 4 → hasFeatureIdx k f = some false := by
    intro h
    unfold hasFeatureIdx
    exact if_pos h
  have hin : k < 3 → f < 4 →
      hasFeatureIdx k f = some (decide (k = 0 ∨ (k = 1 ∧ f = 0) ∨ (k = 2 ∧ f = 2))) := by
    intro hk hf
    interval_cases k <;> interval_cases f <;> decide
  refine ⟨?_, hout, hin, rfl, rfl, ?_, ?_, ?_, ?_, ?_⟩
  · by_cases h : k ≥ 3 ∨ f ≥ 4
    · rw [hout h]
      rfl
    · have hk : k < 3 := by omega
      have hf : f < 4 := by omega
      rw [hin hk hf]
      rfl
  · intro d ft
    cases d <;> cases ft <;> decide
  · intro ft
    cases ft <;> decide
  · intro ft
    cases ft <;> decide
  · intro ft
    cases ft <;> decide
  · intro ft
    cases ft <;> decide

/-- Claim C14 at indices outside the table and at entries of the table. -/
theorem hasFeature_table_witness :
    (7 ≥ 3 ∨ 1 ≥ 4) ∧ hasFeatureIdx 7 1 = some false ∧
    hasFeatureIdx 1 0 = some true ∧ hasFeatureIdx 2 1 = some false :=
  ⟨Or.inl (by decide), (hasFeature_table 7 1).2.1 (Or.inl (by decide)),
    (hasFeature_table 1 0).2.2.1 (by decide) (by decide),
    (hasFeature_table 2 1).2.2.1 (by decide) (by decide)⟩

/-! ### Where the handle is closed -/

theorem handleOpen_closeAndFree (tr : List Ev) : handleOpen (closeAndFree tr) = false := by
  unfold handleOpen closeAndFree
  rw [List.foldl_append]
  rfl

/-- An `openDevice` that fails leaves no handle open. -/
theorem openDevice_none_closed (env : Env) (options : Options) (w : Bool) (tr : List Ev)
    (h : openDevice env options w [] = (none, tr)) : handleOpen tr = false := by
  rw [openDevice_nf] at h
  split_ifs at h <;> simp only [Prod.mk.injEq, reduceCtorEq, false_and, true_and] at h <;>
    subst h <;> rfl

/-- A `prepareDevice` that fails leaves no handle open. -/
theorem prepareDevice_none_closed (env : Env) (options : Options) (w : Bool) (p : Nat)
    (tr : List Ev) (h : prepareDevice env options w p = (none, tr)) : handleOpen tr = false := by
  unfold prepareDevice at h
  rcases hod : openDevice env options true [] with ⟨_ | stored, tr1⟩
  · rw [hod] at h
    simp only [Prod.mk.injEq, true_and] at h
    subst h
    exact openDevice_none_closed env options true tr1 hod
  · rw [hod] at h
    simp only at h
    split_ifs at h <;> simp only [Prod.mk.injEq, reduceCtorEq, false_and, true_and] at h <;>
      subst h <;> exact handleOpen_closeAndFree _

/-- The operations that leave through `finish_him` return with the handle closed:
`doPower`, `selectTarget` and `showStatus`, on every device and every path. -/
theorem handle_closed_through_finish (env : Env) (options : Options) (off on_ : Bool)
    (T : Target) :
    handleOpen (doPower env off on_ options).2 = false ∧
    handleOpen (selectTarget env T options).2 = false ∧
    handleOpen (showStatus env options).2 = false := by
  refine ⟨?_, ?_, ?_⟩
  · unfold doPower
    rcases hp : prepareDevice env options true env.uninitPins with ⟨_ | ⟨p, k⟩, tr0⟩
    · exact prepareDevice_none_closed env options true _ tr0 hp
    · simp only
      rcases powerOff env tr0 p with ⟨r1, q1, t1⟩
      simp only
      rcases powerOn env (t1 ++ [Ev.usleep (periodMicros options)]) q1 with ⟨r2, q2, t2⟩
      simp only
      split_ifs <;> exact handleOpen_closeAndFree _
  · unfold selectTarget
    rcases hp : prepareDevice env options true env.uninitPins with ⟨_ | ⟨p, k⟩, tr0⟩
    · exact prepareDevice_none_closed env options true _ tr0 hp
    · simp only [cbusWrite]
      rcases powerOn env tr0 (clearBits (clearBits p USB_SEL) SOCKET_SEL) with ⟨r1, q1, t1⟩
      rcases powerOff env tr0 (setBits (setBits p USB_SEL) SOCKET_SEL) with ⟨r2, q2, t2⟩
      simp only
      split_ifs <;> exact handleOpen_closeAndFree _
  · unfold showStatus
    rcases hp : prepareDevice env options true env.uninitPins with ⟨_ | ⟨p, k⟩, tr0⟩
    · exact prepareDevice_none_closed env options true _ tr0 hp
    · simp only
      split_ifs <;> exact handleOpen_closeAndFree _

/-- A step of `setSerial` returns with the handle closed when what follows it does. -/
theorem eepromStep_closed (env : Env) (tr : List Ev) (e : Ev) (msg : String)
    (rest : List Ev → Int × List Ev) (h : ∀ t, handleOpen (rest t).2 = false) :
    handleOpen (eepromStep env tr e msg rest).2 = false := by
  unfold eepromStep
  simp only
  split_ifs
  · exact handleOpen_closeAndFree _
  · exact h _

/-- The operation `setSerial` returns with the handle closed on every path. -/
theorem setSerial_closed (env : Env) (serialNumber : String) (options : Options) :
    handleOpen (setSerial env serialNumber options).2 = false := by
  unfold setSerial
  cases options.deviceType with
  | none => rfl
  | some type =>
    simp only
    rcases hod : openDevice env options false [] with ⟨_ | stored, tr0⟩
    · exact openDevice_none_closed env options false tr0 hod
    · simp only
      have hbuild : ∀ t, handleOpen
          (eepromStep env t Ev.eepromBuild "Unable to build eeprom: %d (%s)\n" fun tr =>
            eepromStep env tr Ev.writeEeprom "Unable to write eeprom into device: %d (%s)\n"
              fun tr => (EXIT_SUCCESS, closeAndFree tr)).2 = false := by
        intro t
        apply eepromStep_closed
        intro t
        apply eepromStep_closed
        intro t
        exact handleOpen_closeAndFree _
      apply eepromStep_closed
      intro t
      apply eepromStep_closed
      intro t
      apply eepromStep_closed
      intro t
      split_ifs
      · apply eepromStep_closed
        intro t
        apply eepromStep_closed
        intro t
        apply eepromStep_closed
        intro t
        apply eepromStep_closed
        intro t
        apply eepromStep_closed
        exact hbuild
      · apply eepromStep_closed
        exact hbuild
      · apply eepromStep_closed
        intro t
        apply eepromStep_closed
        intro t
        apply eepromStep_closed
        intro t
        apply eepromStep_closed
        exact hbuild
      · exact hbuild t

end SdMux
